import Mathlib

/-!
Verification development for the exchange_orderbook repository.

A shallow embedding of the single-instrument book engine (AXOB,
src/orderbook/core/axob.py), the session multiplexer (MU,
src/orderbook/core/mu.py) and the utility functions
(src/orderbook/utils/msg_util.py).  Python dictionaries are embedded as
association lists, Python integers as Int, and fallible code (Python
raise / KeyError / assert) as Except.  The message classes
axsbe_order / axsbe_exe / axsbe_snap_stock and the axsbe_base.TPM
enumeration are imported by the source but their module is not part of
the sources; the corresponding Lean structures are modelled from the
spec (section 6) and from the numeric phase codes visible in
src/orderbook/messages/message.py.

Elisions (documented where they occur): logging calls, the snapshot
payload construction and the snapshot reconciler caches
(rebuilt_snaps / market_snaps / last_snap, used only by the test
comparison loop); snapshot EMISSION decisions are embedded faithfully
and are reported as a list of SnapKind events.
-/

set_option maxHeartbeats 1600000

/-- Exchange identifier (axsbe_base.SecurityIDSource_SZSE / _SSE). -/
inductive Src where
  | SZSE
  | SSE
  deriving DecidableEq

/-- Instrument type (axsbe_base.INSTRUMENT_TYPE). -/
inductive IType where
  | STOCK
  | FUND
  | KZZ
  | BOND
  | NHG
  | UNKNOWN
  deriving DecidableEq

/-- Order-book side (axob.SIDE). -/
inductive SIDE where
  | BID
  | ASK
  | UNKNOWN
  deriving DecidableEq

/-- Internal order type (axob.TYPE): limit, market, self-side-optimal. -/
inductive OTYPE where
  | LIMIT
  | MARKET
  | SIDE
  | UNKNOWN
  deriving DecidableEq

/-- Modelled from the spec: axsbe_base.TPM is not under src/.  The nine
market trading phases of spec section 3; the numeric codes follow the
TradingPhaseMarket mapping in src/orderbook/messages/message.py
(Starting=0 .. CloseCall=6, Ending=9); VolatilityBreaking is placed
between CloseCall and Ending so that the VolatilityBreaking branches of
axob.genSnap are reachable, as the source requires. -/
inductive TPM where
  | Starting
  | OpenCall
  | PreTradingBreaking
  | AMTrading
  | Breaking
  | PMTrading
  | CloseCall
  | VolatilityBreaking
  | Ending
  deriving DecidableEq

/-- Numeric phase code (message.py TradingPhaseMarket). -/
def TPM.code : TPM → Int
  | .Starting => 0
  | .OpenCall => 1
  | .PreTradingBreaking => 2
  | .AMTrading => 3
  | .Breaking => 4
  | .PMTrading => 5
  | .CloseCall => 6
  | .VolatilityBreaking => 7
  | .Ending => 9

/-- Signals sent from MU to AXOB (axob.AX_SIGNAL). -/
inductive AXSIG where
  | OPENCALL_BGN
  | OPENCALL_END
  | AMTRADING_BGN
  | AMTRADING_END
  | PMTRADING_BGN
  | PMTRADING_END
  | ALL_END
  deriving DecidableEq

/-- Market subtype (msg_util.MARKET_SUBTYPE). -/
inductive MSUB where
  | SZSE_STK_MB
  | SZSE_STK_SME
  | SZSE_STK_GEM
  | SZSE_STK_B
  | SZSE_KZZ
  | SZSE_OTHERS
  | SSE
  deriving DecidableEq

/-- msg_util.market_subtype. -/
def marketSubtype (src : Src) (SecurityID : Int) : MSUB :=
  if src = Src.SZSE then
    if SecurityID ≤ 1999 then MSUB.SZSE_STK_MB
    else if SecurityID < 4999 then MSUB.SZSE_STK_SME
    else if 300000 ≤ SecurityID ∧ SecurityID < 309999 then MSUB.SZSE_STK_GEM
    else if 200000 ≤ SecurityID ∧ SecurityID < 209999 then MSUB.SZSE_STK_B
    else if 120000 ≤ SecurityID ∧ SecurityID < 129999 then MSUB.SZSE_KZZ
    else MSUB.SZSE_OTHERS
  else MSUB.SSE

/- msg_util precision constants. -/

def PRICE_SZSE_INCR_PRECISION : Int := 10000

def PRICE_SZSE_SNAP_PRECISION : Int := 10000

def PRICE_SZSE_SNAP_PRECLOSE_PRECISION : Int := 10000

def TOTALVALUETRADE_SZSE_PRECISION : Int := 10000

def PRICE_SSE_PRECISION : Int := 1000

def TOTALVALUETRADE_SSE_PRECISION : Int := 100000

def ORDER_PRICE_OVERFLOW : Int := 0x7fffffff

/-- msg_util.CYB_cage_upper: ChiNext price-cage upper bound. -/
def CYB_cage_upper (x : Int) : Int :=
  if x ≤ 24 then x + 1 else (x * 102 + 50) / 100

/-- msg_util.CYB_cage_lower: ChiNext price-cage lower bound. -/
def CYB_cage_lower (x : Int) : Int :=
  if x ≤ 25 then x - 1 else (x * 98 + 50) / 100

/-- msg_util.CYB_match_upper: ChiNext effective auction range upper bound. -/
def CYB_match_upper (x : Int) : Int := (x * 110 + 50) / 100

/-- msg_util.CYB_match_lower: ChiNext effective auction range lower bound. -/
def CYB_match_lower (x : Int) : Int := (x * 90 + 50) / 100

/- axob internal-precision constants. -/

def APPSEQ_BIT_SIZE : Nat := 32

def PRICE_BIT_SIZE : Nat := 25

def QTY_BIT_SIZE : Nat := 30

def TIMESTAMP_BIT_SIZE : Nat := 28

def PRICE_INTER_STOCK_PRECISION : Int := 100

def PRICE_INTER_FUND_PRECISION : Int := 1000

def PRICE_INTER_KZZ_PRECISION : Int := 1000

def QTY_INTER_SZSE_PRECISION : Int := 100

def QTY_INTER_SSE_PRECISION : Int := 1000

def SZSE_TICK_CUT : Int := 1000000000

def SZSE_TICK_MS_TAIL : Int := 10

def PRICE_MAXIMUM : Int := (2 ^ PRICE_BIT_SIZE : Int) - 1

def CYB_ORDER_ENVALUE_MAX_RATE : Int := 9

/-- Raw-to-internal price divisor SZSE_STOCK_PRICE_RD. -/
def SZSE_STOCK_PRICE_RD : Int := PRICE_SZSE_INCR_PRECISION / PRICE_INTER_STOCK_PRECISION

/-- Raw-to-internal price divisor SZSE_FUND_PRICE_RD. -/
def SZSE_FUND_PRICE_RD : Int := PRICE_SZSE_INCR_PRECISION / PRICE_INTER_FUND_PRECISION

/-- Raw-to-internal price divisor SZSE_KZZ_PRICE_RD. -/
def SZSE_KZZ_PRICE_RD : Int := PRICE_SZSE_INCR_PRECISION / PRICE_INTER_KZZ_PRECISION

/-- Raw-to-internal price divisor SSE_STOCK_PRICE_RD. -/
def SSE_STOCK_PRICE_RD : Int := PRICE_SSE_PRECISION / PRICE_INTER_STOCK_PRECISION

/- Association-list embedding of Python dict. -/

/-- Dictionary lookup on an association list. -/
def alookup {α : Type} : List (Int × α) → Int → Option α
  | [], _ => none
  | (k, v) :: t, key => if k = key then some v else alookup t key

/-- Dictionary write d[k] = v: replace the first binding of k, or append. -/
def setKey {α : Type} : List (Int × α) → Int → α → List (Int × α)
  | [], key, v => [(key, v)]
  | (k, w) :: t, key, v =>
    if k = key then (key, v) :: t else (k, w) :: setKey t key v

/-- Dictionary delete (del d[k] / d.pop(k)): drop the first binding of k. -/
def eraseKey {α : Type} : List (Int × α) → Int → List (Int × α)
  | [], _ => []
  | (k, w) :: t, key => if k = key then t else (k, w) :: eraseKey t key

/-- The keys of an association list. -/
def keysOf {α : Type} (l : List (Int × α)) : List Int := l.map Prod.fst

/-- max(d.keys()) with default 0 (only used on non-empty dicts). -/
def maxKey {α : Type} : List (Int × α) → Int
  | [] => 0
  | (k, _) :: t => (keysOf t).foldl max k

/-- min(d.keys()) with default 0 (only used on non-empty dicts). -/
def minKey {α : Type} : List (Int × α) → Int
  | [] => 0
  | (k, _) :: t => (keysOf t).foldl min k

/-- Smallest key strictly greater than cur (first of sorted filtered keys). -/
def minKeyAbove {α : Type} (l : List (Int × α)) (cur : Int) : Option Int :=
  (l.map Prod.fst).foldl
    (fun acc k =>
      if cur < k then
        match acc with
        | none => some k
        | some m => some (min m k)
      else acc) none

/-- Largest key strictly smaller than cur (first of reverse-sorted filtered keys). -/
def maxKeyBelow {α : Type} (l : List (Int × α)) (cur : Int) : Option Int :=
  (l.map Prod.fst).foldl
    (fun acc k =>
      if k < cur then
        match acc with
        | none => some k
        | some m => some (max m k)
      else acc) none

/-- Sum of the values of a (price, qty) association list. -/
def sumVals : List (Int × Int) → Int
  | [] => 0
  | (_, q) :: t => q + sumVals t

/-- Insertion of a value into an ascending list (for embedding sorted()). -/
def insSorted : Int → List Int → List Int
  | x, [] => [x]
  | x, y :: t => if x ≤ y then x :: y :: t else y :: insSorted x t

/-- Ascending sort of a list of keys (embedding of Python sorted()). -/
def sortAsc : List Int → List Int
  | [] => []
  | x :: t => insSorted x (sortAsc t)

/-- Descending sort (embedding of Python sorted(reverse=True)). -/
def sortDesc (l : List Int) : List Int := (sortAsc l).reverse

/-- C8: for every non-negative integer price x, CYB_cage_upper x is x+1 for
x ≤ 24 and the half-up rounding of 1.02·x otherwise, CYB_cage_lower x is
x−1 for x ≤ 25 and the half-up rounding of 0.98·x otherwise, and the band
always admits at least one tick on each side: CYB_cage_upper x > x for all
x ≥ 0, and CYB_cage_lower x < x for all x ≥ 1. -/
theorem cyb_cage_band_admits_tick (x : Int) (hx : 0 ≤ x) :
    CYB_cage_upper x = (if x ≤ 24 then x + 1 else (102 * x + 50) / 100) ∧
    CYB_cage_lower x = (if x ≤ 25 then x - 1 else (98 * x + 50) / 100) ∧
    x < CYB_cage_upper x ∧ (1 ≤ x → CYB_cage_lower x < x) := by
  refine ⟨by simp [CYB_cage_upper, Int.mul_comm], by simp [CYB_cage_lower, Int.mul_comm], ?_, ?_⟩
  · unfold CYB_cage_upper
    by_cases h : x ≤ 24 <;> simp [h] <;> omega
  · intro h1
    unfold CYB_cage_lower
    by_cases h : x ≤ 25 <;> simp [h] <;> omega

/-- Witness for cyb_cage_band_admits_tick at x = 30. -/
theorem cyb_cage_band_admits_tick_witness :
    CYB_cage_upper 30 = (if (30 : Int) ≤ 24 then 30 + 1 else (102 * 30 + 50) / 100) ∧
    CYB_cage_lower 30 = (if (30 : Int) ≤ 25 then 30 - 1 else (98 * 30 + 50) / 100) ∧
    (30 : Int) < CYB_cage_upper 30 ∧ ((1 : Int) ≤ 30 → CYB_cage_lower 30 < 30) := by
  exact cyb_cage_band_admits_tick 30 (by decide)

/-- Modelled from the spec: the axsbe_order message (spec section 6); the
axsbe_order class is not under src/.  Side and OrdType carry the decoded
Side_str / Type_str values the source branches on. -/
inductive OrdSide where
  | Buy
  | Sell
  | Other
  deriving DecidableEq

/-- Modelled from the spec: decoded order Type_str values
(Limit, Market, SelfSideOptimal for SZSE; New, Delete for SSE). -/
inductive OrdType where
  | Limit
  | Market
  | SelfOptimal
  | New
  | Delete
  | Other
  deriving DecidableEq

/-- Modelled from the spec: order message fields consumed by the source. -/
structure AxsbeOrder where
  SecurityIDSource : Src
  SecurityID : Int
  ChannelNo : Int
  ApplSeqNum : Int
  TransactTime : Int
  Side : OrdSide
  OrdType : OrdType
  Price : Int
  OrderQty : Int
  OrderNo : Int
  TradingPhaseMarket : TPM
  deriving DecidableEq

/-- Modelled from the spec: SZSE ExecType values (Trade / Cancel). -/
inductive ExecType where
  | Trade
  | Cancel
  deriving DecidableEq

/-- Modelled from the spec: execution message fields consumed by the source. -/
structure AxsbeExe where
  SecurityIDSource : Src
  SecurityID : Int
  ChannelNo : Int
  ApplSeqNum : Int
  TransactTime : Int
  BidApplSeqNum : Int
  OfferApplSeqNum : Int
  LastPx : Int
  LastQty : Int
  ExecType : ExecType
  TradingPhaseMarket : TPM
  deriving DecidableEq

/-- Internal order record (axob.ob_order slots). -/
structure ObOrder where
  applSeqNum : Int
  price : Int
  qty : Int
  side : SIDE
  otype : OTYPE
  traded : Bool
  TransactTime : Int
  deriving DecidableEq

/-- Internal execution record (axob.ob_exec slots). -/
structure ObExec where
  LastPx : Int
  LastQty : Int
  BidApplSeqNum : Int
  OfferApplSeqNum : Int
  TradingPhaseMarket : TPM
  TransactTime : Int
  deriving DecidableEq

/-- Internal cancel record (axob.ob_cancel slots). -/
structure ObCancel where
  applSeqNum : Int
  qty : Int
  price : Int
  side : SIDE
  TransactTime : Int
  deriving DecidableEq

/-- ob_order constructor: decode side and type, rescale the price to the
internal precision and clamp on overflow (axob.ob_order, lines 99-171).
Logging-only branches are elided; in the unsupported-instrument branches
the source logs an error and leaves the price attribute unset, embedded
here as price 0. -/
def mkObOrder (order : AxsbeOrder) (itype : IType) : ObOrder :=
  let side :=
    match order.Side with
    | OrdSide.Buy => SIDE.BID
    | OrdSide.Sell => SIDE.ASK
    | OrdSide.Other => SIDE.UNKNOWN
  let ty :=
    match order.OrdType with
    | OrdType.Limit => OTYPE.LIMIT
    | OrdType.Market => OTYPE.MARKET
    | OrdType.SelfOptimal => OTYPE.SIDE
    | OrdType.New => OTYPE.LIMIT
    | _ => OTYPE.UNKNOWN
  let price :=
    if order.Price = ORDER_PRICE_OVERFLOW then PRICE_MAXIMUM
    else
      if order.SecurityIDSource = Src.SZSE then
        if itype = IType.STOCK then order.Price / SZSE_STOCK_PRICE_RD
        else if itype = IType.FUND then order.Price / SZSE_FUND_PRICE_RD
        else if itype = IType.KZZ then order.Price / SZSE_KZZ_PRICE_RD
        else 0
      else
        if itype = IType.STOCK then order.Price / SSE_STOCK_PRICE_RD
        else if itype = IType.BOND then order.Price
        else 0
  let price := if (2 ^ PRICE_BIT_SIZE : Int) ≤ price then PRICE_MAXIMUM else price
  { applSeqNum := order.ApplSeqNum
    price := price
    qty := order.OrderQty
    side := side
    otype := ty
    traded := false
    TransactTime := order.TransactTime }

/-- ob_exec constructor: rescale LastPx to the internal precision
(axob.ob_exec, lines 199-223).  Unsupported-instrument branches log and
leave LastPx unset in the source; embedded as 0. -/
def mkObExec (e : AxsbeExe) (itype : IType) : ObExec :=
  let lastPx :=
    if e.SecurityIDSource = Src.SZSE then
      if itype = IType.STOCK then e.LastPx / SZSE_STOCK_PRICE_RD
      else if itype = IType.FUND then e.LastPx / SZSE_FUND_PRICE_RD
      else if itype = IType.KZZ then e.LastPx / SZSE_KZZ_PRICE_RD
      else 0
    else
      if itype = IType.STOCK then e.LastPx / SSE_STOCK_PRICE_RD
      else 0
  { LastPx := lastPx
    LastQty := e.LastQty
    BidApplSeqNum := e.BidApplSeqNum
    OfferApplSeqNum := e.OfferApplSeqNum
    TradingPhaseMarket := e.TradingPhaseMarket
    TransactTime := e.TransactTime }

/-- ob_cancel constructor (axob.ob_cancel, lines 247-270): SZSE cancels
carry no price; SSE stock cancels rescale the price.  Logging-only
bit-width checks elided; unsupported branches leave price unset in the
source, embedded as 0. -/
def mkObCancel (ApplSeqNum Qty Price : Int) (Side : SIDE) (TransactTime : Int)
    (src : Src) (itype : IType) : ObCancel :=
  let price :=
    if src = Src.SZSE then 0
    else if itype = IType.STOCK then Price / SSE_STOCK_PRICE_RD
    else 0
  { applSeqNum := ApplSeqNum
    qty := Qty
    price := price
    side := Side
    TransactTime := TransactTime }

/-- Snapshot emission events.  The snapshot payload construction
(genCallSnap / genTradingSnap field assembly) and the reconciler caches
are elided: no claim depends on payload contents, only on whether and
which kind of snapshot is generated. -/
inductive SnapKind where
  | call
  | trading
  deriving DecidableEq

/-- The AXOB book-engine state (axob.AXOB slots).  The test-only
reconciler fields rebuilt_snaps, market_snaps and last_snap and the
logger fields are elided; all book, session, cage, holding, profiling
and sequencing state is carried. -/
structure AXOB where
  SecurityID : Int
  SecurityIDSource : Src
  instrument_type : IType
  order_map : List (Int × ObOrder)
  illegal_order_map : List (Int × ObOrder)
  bid_level_tree : List (Int × Int)
  ask_level_tree : List (Int × Int)
  NumTrades : Int
  bid_max_level_price : Int
  bid_max_level_qty : Int
  ask_min_level_price : Int
  ask_min_level_qty : Int
  LastPx : Int
  HighPx : Int
  LowPx : Int
  OpenPx : Int
  closePx_ready : Bool
  constantValue_ready : Bool
  ChannelNo : Int
  PrevClosePx : Int
  DnLimitPx : Int
  UpLimitPx : Int
  DnLimitPrice : Int
  UpLimitPrice : Int
  YYMMDD : Int
  current_inc_tick : Int
  BidWeightSize : Int
  BidWeightValue : Int
  AskWeightSize : Int
  AskWeightValue : Int
  AskWeightSizeEx : Int
  AskWeightValueEx : Int
  TotalVolumeTrade : Int
  TotalValueTrade : Int
  holding_order : Option ObOrder
  holding_nb : Int
  TradingPhaseMarket : TPM
  AskWeightPx_uncertain : Bool
  market_subtype : MSUB
  bid_cage_upper_ex_min_level_price : Int
  bid_cage_upper_ex_min_level_qty : Int
  ask_cage_lower_ex_max_level_price : Int
  ask_cage_lower_ex_max_level_qty : Int
  bid_cage_ref_px : Int
  ask_cage_ref_px : Int
  bid_waiting_for_cage : Bool
  ask_waiting_for_cage : Bool
  pf_order_map_maxSize : Int
  pf_level_tree_maxSize : Int
  pf_bid_level_tree_maxSize : Int
  pf_ask_level_tree_maxSize : Int
  pf_AskWeightSize_max : Int
  pf_AskWeightValue_max : Int
  pf_BidWeightSize_max : Int
  pf_BidWeightValue_max : Int
  msg_nb : Int
  last_inc_applSeqNum : Int
  deriving DecidableEq

def CHANNELNO_INIT : Int := -1

/-- AXOB.__init__ (fresh-construction branch, axob.py lines 409-484). -/
def AXOB.init (SecurityID : Int) (src : Src) (itype : IType) : AXOB :=
  { SecurityID := SecurityID
    SecurityIDSource := src
    instrument_type := itype
    order_map := []
    illegal_order_map := []
    bid_level_tree := []
    ask_level_tree := []
    NumTrades := 0
    bid_max_level_price := 0
    bid_max_level_qty := 0
    ask_min_level_price := 0
    ask_min_level_qty := 0
    LastPx := 0
    HighPx := 0
    LowPx := 0
    OpenPx := 0
    closePx_ready := false
    constantValue_ready := false
    ChannelNo := CHANNELNO_INIT
    PrevClosePx := 0
    DnLimitPx := 0
    UpLimitPx := 0
    DnLimitPrice := 0
    UpLimitPrice := 0
    YYMMDD := 0
    current_inc_tick := 0
    BidWeightSize := 0
    BidWeightValue := 0
    AskWeightSize := 0
    AskWeightValue := 0
    AskWeightSizeEx := 0
    AskWeightValueEx := 0
    TotalVolumeTrade := 0
    TotalValueTrade := 0
    holding_order := none
    holding_nb := 0
    TradingPhaseMarket := TPM.Starting
    AskWeightPx_uncertain := false
    market_subtype := marketSubtype src SecurityID
    bid_cage_upper_ex_min_level_price := 0
    bid_cage_upper_ex_min_level_qty := 0
    ask_cage_lower_ex_max_level_price := 0
    ask_cage_lower_ex_max_level_qty := 0
    bid_cage_ref_px := 0
    ask_cage_ref_px := 0
    bid_waiting_for_cage := false
    ask_waiting_for_cage := false
    pf_order_map_maxSize := 0
    pf_level_tree_maxSize := 0
    pf_bid_level_tree_maxSize := 0
    pf_ask_level_tree_maxSize := 0
    pf_AskWeightSize_max := 0
    pf_AskWeightValue_max := 0
    pf_BidWeightSize_max := 0
    pf_BidWeightValue_max := 0
    msg_nb := 0
    last_inc_applSeqNum := 0 }

/-- AXOB._useTimestamp (overflow logging elided). -/
def useTimestamp (s : AXOB) (TransactTime : Int) : AXOB :=
  if s.SecurityIDSource = Src.SZSE then
    { s with current_inc_tick :=
        TransactTime / SZSE_TICK_MS_TAIL % (SZSE_TICK_CUT / SZSE_TICK_MS_TAIL) }
  else
    { s with current_inc_tick := TransactTime }

/-- AXOB._insert_bid_level. -/
def insertBidLevel (s : AXOB) (o : ObOrder) (outOfCage : Bool) : AXOB :=
  let s :=
    match alookup s.bid_level_tree o.price with
    | some q =>
      let s := { s with bid_level_tree := setKey s.bid_level_tree o.price (q + o.qty) }
      if o.price = s.bid_max_level_price then
        { s with bid_max_level_qty := s.bid_max_level_qty + o.qty }
      else s
    | none =>
      let s := { s with bid_level_tree := setKey s.bid_level_tree o.price o.qty }
      if ¬outOfCage = true ∧ (s.bid_max_level_qty = 0 ∨ s.bid_max_level_price < o.price) then
        { s with bid_max_level_price := o.price, bid_max_level_qty := o.qty }
      else s
  if ¬outOfCage = true then
    { s with BidWeightSize := s.BidWeightSize + o.qty
             BidWeightValue := s.BidWeightValue + o.price * o.qty }
  else s

/-- AXOB._insert_ask_level. -/
def insertAskLevel (s : AXOB) (o : ObOrder) (outOfCage : Bool) : AXOB :=
  let s :=
    match alookup s.ask_level_tree o.price with
    | some q =>
      let s := { s with ask_level_tree := setKey s.ask_level_tree o.price (q + o.qty) }
      if o.price = s.ask_min_level_price then
        { s with ask_min_level_qty := s.ask_min_level_qty + o.qty }
      else s
    | none =>
      let s := { s with ask_level_tree := setKey s.ask_level_tree o.price o.qty }
      if ¬outOfCage = true ∧ (s.ask_min_level_qty = 0 ∨ o.price < s.ask_min_level_price) then
        { s with ask_min_level_price := o.price, ask_min_level_qty := o.qty }
      else s
  if ¬outOfCage = true then
    { s with AskWeightSize := s.AskWeightSize + o.qty
             AskWeightValue := s.AskWeightValue + o.price * o.qty }
  else s

/-- AXOB.insertOrder. -/
def insertOrder (s : AXOB) (o : ObOrder) (outOfCage : Bool) : AXOB :=
  let s := { s with order_map := setKey s.order_map o.applSeqNum o }
  if o.side = SIDE.BID then insertBidLevel s o outOfCage else insertAskLevel s o outOfCage

/-- AXOB._update_bid_max. -/
def updateBidMax (s : AXOB) : AXOB :=
  if s.bid_level_tree.isEmpty then
    { s with bid_max_level_price := 0, bid_max_level_qty := 0 }
  else
    let p := maxKey s.bid_level_tree
    { s with bid_max_level_price := p
             bid_max_level_qty := (alookup s.bid_level_tree p).getD 0 }

/-- AXOB._update_ask_min. -/
def updateAskMin (s : AXOB) : AXOB :=
  if s.ask_level_tree.isEmpty then
    { s with ask_min_level_price := 0, ask_min_level_qty := 0 }
  else
    let p := minKey s.ask_level_tree
    { s with ask_min_level_price := p
             ask_min_level_qty := (alookup s.ask_level_tree p).getD 0 }

/-- AXOB._dequeue_bid_level. -/
def dequeueBidLevel (s : AXOB) (price qty : Int) : AXOB :=
  match alookup s.bid_level_tree price with
  | none => s
  | some q0 =>
    let newQty := q0 - qty
    let s := { s with bid_level_tree := setKey s.bid_level_tree price newQty }
    let s :=
      if ¬(s.bid_cage_upper_ex_min_level_qty ≠ 0 ∧ s.bid_cage_upper_ex_min_level_price ≤ price) then
        { s with BidWeightSize := s.BidWeightSize - qty
                 BidWeightValue := s.BidWeightValue - price * qty }
      else s
    if price = s.bid_max_level_price then
      let s := { s with bid_max_level_qty := s.bid_max_level_qty - qty }
      if newQty ≤ 0 then
        updateBidMax { s with bid_level_tree := eraseKey s.bid_level_tree price }
      else s
    else
      if newQty ≤ 0 then { s with bid_level_tree := eraseKey s.bid_level_tree price }
      else s

/-- AXOB._dequeue_ask_level. -/
def dequeueAskLevel (s : AXOB) (price qty : Int) : AXOB :=
  match alookup s.ask_level_tree price with
  | none => s
  | some q0 =>
    let newQty := q0 - qty
    let s := { s with ask_level_tree := setKey s.ask_level_tree price newQty }
    let s :=
      if ¬(s.ask_cage_lower_ex_max_level_qty ≠ 0 ∧ price ≤ s.ask_cage_lower_ex_max_level_price) then
        { s with AskWeightSize := s.AskWeightSize - qty
                 AskWeightValue := s.AskWeightValue - price * qty }
      else s
    if price = s.ask_min_level_price then
      let s := { s with ask_min_level_qty := s.ask_min_level_qty - qty }
      if newQty ≤ 0 then
        updateAskMin { s with ask_level_tree := eraseKey s.ask_level_tree price }
      else s
    else
      if newQty ≤ 0 then { s with ask_level_tree := eraseKey s.ask_level_tree price }
      else s

/-- AXOB.levelDequeue. -/
def levelDequeue (s : AXOB) (side : SIDE) (price qty : Int) : AXOB :=
  if side = SIDE.BID then dequeueBidLevel s price qty else dequeueAskLevel s price qty

/-- AXOB.tradeLimit (axob.py 1027-1032).  When appSeqNum is missing from
order_map the source logs an ERROR and then unconditionally evaluates
self.order_map with that key, raising KeyError to the caller; embedded
as an Except.error.  The partial-execution decrement of the registry qty
is commented out in the source, so the registry entry is not modified. -/
def tradeLimit (s : AXOB) (side : SIDE) (Qty appSeqNum : Int) : Except String AXOB :=
  match alookup s.order_map appSeqNum with
  | none => Except.error "KeyError: traded order not found"
  | some o => Except.ok (levelDequeue s side o.price Qty)

/-- AXOB._update_next_bid_cage_order: the innermost (lowest) hidden bid
price strictly above the edge just admitted. -/
def updateNextBidCageOrder (s : AXOB) : AXOB :=
  let s := { s with bid_cage_upper_ex_min_level_qty := 0 }
  match minKeyAbove s.bid_level_tree s.bid_cage_upper_ex_min_level_price with
  | none => s
  | some p =>
    { s with bid_cage_upper_ex_min_level_price := p
             bid_cage_upper_ex_min_level_qty := (alookup s.bid_level_tree p).getD 0 }

/-- AXOB._update_next_ask_cage_order. -/
def updateNextAskCageOrder (s : AXOB) : AXOB :=
  let s := { s with ask_cage_lower_ex_max_level_qty := 0 }
  match maxKeyBelow s.ask_level_tree s.ask_cage_lower_ex_max_level_price with
  | none => s
  | some p =>
    { s with ask_cage_lower_ex_max_level_price := p
             ask_cage_lower_ex_max_level_qty := (alookup s.ask_level_tree p).getD 0 }

/-- AXOB._enter_bid_cage. -/
def enterBidCage (s : AXOB) : AXOB :=
  let s := { s with
    bid_max_level_price := s.bid_cage_upper_ex_min_level_price
    bid_max_level_qty := s.bid_cage_upper_ex_min_level_qty
    BidWeightSize := s.BidWeightSize + s.bid_cage_upper_ex_min_level_qty
    BidWeightValue := s.BidWeightValue +
      s.bid_cage_upper_ex_min_level_price * s.bid_cage_upper_ex_min_level_qty }
  let s := { s with ask_cage_ref_px := s.bid_max_level_price }
  let s := if s.ask_min_level_qty = 0 then { s with bid_cage_ref_px := s.bid_max_level_price } else s
  updateNextBidCageOrder s

/-- AXOB._enter_ask_cage. -/
def enterAskCage (s : AXOB) : AXOB :=
  let s := { s with
    ask_min_level_price := s.ask_cage_lower_ex_max_level_price
    ask_min_level_qty := s.ask_cage_lower_ex_max_level_qty
    AskWeightSize := s.AskWeightSize + s.ask_cage_lower_ex_max_level_qty
    AskWeightValue := s.AskWeightValue +
      s.ask_cage_lower_ex_max_level_price * s.ask_cage_lower_ex_max_level_qty }
  let s := { s with bid_cage_ref_px := s.ask_min_level_price }
  let s := if s.bid_max_level_qty = 0 then { s with ask_cage_ref_px := s.ask_min_level_price } else s
  updateNextAskCageOrder s

/-- AXOB._process_bid_cage_orders: (new state, whether a level entered). -/
def processBidCageOrders (s : AXOB) : AXOB × Bool :=
  if s.bid_cage_upper_ex_min_level_qty = 0 then (s, false)
  else if CYB_cage_upper s.bid_cage_ref_px < s.bid_cage_upper_ex_min_level_price then (s, false)
  else if s.ask_min_level_qty ≠ 0 ∧ s.ask_min_level_price ≤ s.bid_cage_upper_ex_min_level_price ∧
          s.TradingPhaseMarket ≠ TPM.VolatilityBreaking then
    ({ s with bid_waiting_for_cage := true }, false)
  else (enterBidCage s, true)

/-- AXOB._process_ask_cage_orders. -/
def processAskCageOrders (s : AXOB) : AXOB × Bool :=
  if s.ask_cage_lower_ex_max_level_qty = 0 then (s, false)
  else if s.ask_cage_lower_ex_max_level_price < CYB_cage_lower s.ask_cage_ref_px then (s, false)
  else if s.bid_max_level_qty ≠ 0 ∧ s.ask_cage_lower_ex_max_level_price ≤ s.bid_max_level_price ∧
          s.TradingPhaseMarket ≠ TPM.VolatilityBreaking then
    ({ s with ask_waiting_for_cage := true }, false)
  else (enterAskCage s, true)

/-- AXOB._process_cage_orders. -/
def processCageOrders (s : AXOB) : AXOB × Bool :=
  let r1 := processBidCageOrders s
  let r2 := processAskCageOrders r1.1
  (r2.1, r1.2 || r2.2)

/-- The while-loop of AXOB.enterCage, embedded with fuel. -/
def enterCageLoop : Nat → AXOB → AXOB
  | 0, s => s
  | Nat.succ n, s =>
    let r := processCageOrders s
    if r.2 then enterCageLoop n r.1 else r.1

/-- AXOB.enterCage: iterate the admission scan to a fixed point (each
iteration that admits a level strictly shrinks the hidden region, so the
level count bounds the iterations and the fuel is sufficient), then
clear both waiting flags. -/
def enterCage (s : AXOB) : AXOB :=
  let s1 := enterCageLoop (s.bid_level_tree.length + s.ask_level_tree.length + 1) s
  { s1 with bid_waiting_for_cage := false, ask_waiting_for_cage := false }

/-- Continuous-trading snapshot production: the source genTradingSnap
returns None (and the caller emits nothing) for instrument types other
than STOCK and KZZ. -/
def tradingSnapEmit (s : AXOB) : List SnapKind :=
  if s.instrument_type = IType.STOCK ∨ s.instrument_type = IType.KZZ then [SnapKind.trading]
  else []

/-- AXOB.genSnap emission decision (axob.py 1294-1311).  The snapshot
payload assembly and the reconciler bookkeeping are elided (test-only);
the phase dispatch deciding whether a snapshot is produced is embedded
as in the source.  The source assert (VolatilityBreaking or
holding_nb == 0) holds at every call site embedded below. -/
def genSnap (s : AXOB) : AXOB × List SnapKind :=
  if s.TradingPhaseMarket.code < TPM.code TPM.OpenCall ∨
     TPM.code TPM.Ending < s.TradingPhaseMarket.code then
    (s, [])
  else if s.TradingPhaseMarket = TPM.OpenCall ∨ s.TradingPhaseMarket = TPM.CloseCall then
    (s, [SnapKind.call])
  else if s.TradingPhaseMarket = TPM.VolatilityBreaking then
    (s, tradingSnapEmit s)
  else if s.TradingPhaseMarket = TPM.Ending then
    (if s.closePx_ready = true then (s, tradingSnapEmit s) else (s, []))
  else
    (s, tradingSnapEmit s)

/-- The GEM out-of-cage test of AXOB.onLimitOrder (axob.py 724-726). -/
def gemOutOfCageB (s : AXOB) (o : ObOrder) : Bool :=
  decide (s.market_subtype = MSUB.SZSE_STK_GEM ∧ o.otype = OTYPE.LIMIT ∧
    ((o.side = SIDE.BID ∧ CYB_cage_upper s.bid_cage_ref_px < o.price) ∨
     (o.side = SIDE.ASK ∧ o.price < CYB_cage_lower s.ask_cage_ref_px)))

/-- The would-cross test of AXOB.onLimitOrder (axob.py 740-741). -/
def crossingB (s : AXOB) (o : ObOrder) : Bool :=
  decide ((o.side = SIDE.BID ∧ s.ask_min_level_price ≤ o.price ∧ 0 < s.ask_min_level_qty) ∨
          (o.side = SIDE.ASK ∧ o.price ≤ s.bid_max_level_price ∧ 0 < s.bid_max_level_qty))

/-- The GEM no-limit call-auction discard test of AXOB.onLimitOrder
(axob.py 700-705). -/
def callAuctionIllegalB (s : AXOB) (o : ObOrder) : Bool :=
  decide (s.market_subtype = MSUB.SZSE_STK_GEM ∧ s.UpLimitPx = ORDER_PRICE_OVERFLOW ∧
    ((s.TradingPhaseMarket = TPM.OpenCall ∧
      o.side = SIDE.BID ∧ s.PrevClosePx * CYB_ORDER_ENVALUE_MAX_RATE < o.price) ∨
     (s.TradingPhaseMarket = TPM.CloseCall ∧
      (CYB_match_upper s.LastPx < o.price ∨ o.price < CYB_match_lower s.LastPx))))

/-- AXOB.onLimitOrder (axob.py 693-752). -/
def onLimitOrder (s : AXOB) (o : ObOrder) : AXOB × List SnapKind :=
  if s.TradingPhaseMarket = TPM.OpenCall ∨ s.TradingPhaseMarket = TPM.CloseCall then
    if callAuctionIllegalB s o = true then
      genSnap { s with illegal_order_map := setKey s.illegal_order_map o.applSeqNum o }
    else
      let s := insertOrder s o false
      genSnap { s with bid_waiting_for_cage := false, ask_waiting_for_cage := false }
  else
    if gemOutOfCageB s o = true then
      genSnap (insertOrder s o true)
    else if s.TradingPhaseMarket = TPM.VolatilityBreaking then
      genSnap (insertOrder s o false)
    else if o.otype = OTYPE.MARKET then
      ({ s with holding_order := some o, holding_nb := s.holding_nb + 1 }, [])
    else if crossingB s o = true then
      ({ s with holding_order := some o, holding_nb := s.holding_nb + 1
                bid_waiting_for_cage := false, ask_waiting_for_cage := false }, [])
    else
      let s := insertOrder s o false
      let s := if s.market_subtype = MSUB.SZSE_STK_GEM then enterCage s else s
      genSnap s

/-- AXOB.onCancel (axob.py 1043-1082).  The holding-slot flush follows
the if True: branch the source actually executes (insert the held order,
snapshot stamped with the held timestamp when the timestamps differ).
A cancel found in neither the registry nor the illegal-order set logs an
error and raises (the source raises a str, which in Python 3 surfaces as
an exception to the caller either way); embedded as Except.error. -/
def onCancel (s : AXOB) (c : ObCancel) : Except String (AXOB × List SnapKind) :=
  let flush : Except String (AXOB × List SnapKind) :=
    if s.holding_nb ≠ 0 then
      match s.holding_order with
      | none => Except.error "holding_nb set but no holding order"
      | some h =>
        let s := { s with holding_nb := 0 }
        let s := insertOrder s h false
        if c.TransactTime ≠ h.TransactTime then
          let s := useTimestamp s h.TransactTime
          let r := genSnap s
          Except.ok (useTimestamp r.1 c.TransactTime, r.2)
        else Except.ok (s, [])
    else Except.ok (s, [])
  match flush with
  | Except.error e => Except.error e
  | Except.ok (s, emits0) =>
    match alookup s.order_map c.applSeqNum with
    | some o =>
      let s := { s with order_map := eraseKey s.order_map c.applSeqNum }
      let s := levelDequeue s c.side o.price c.qty
      let s := if s.market_subtype = MSUB.SZSE_STK_GEM then enterCage s else s
      let r := genSnap s
      Except.ok (r.1, emits0 ++ r.2)
    | none =>
      if (alookup s.illegal_order_map c.applSeqNum).isSome then
        Except.ok ({ s with illegal_order_map := eraseKey s.illegal_order_map c.applSeqNum },
                   emits0)
      else Except.error "cancel AppSeqNum not found"

/-- The session-counter update of AXOB.onTrade (axob.py 825-846).  The
source computes the traded value with Python float division and int()
truncation; quantities and prices are non-negative so this is embedded
as integer division.  The unsupported-instrument branches execute
TotalValueTrade += None, a TypeError raised to the caller; embedded as
Except.error. -/
def addTotalValueTrade (s : AXOB) (e : ObExec) : Except String AXOB :=
  if s.SecurityIDSource = Src.SZSE then
    if s.instrument_type = IType.STOCK then
      Except.ok { s with TotalValueTrade := s.TotalValueTrade +
        e.LastQty * e.LastPx /
          (QTY_INTER_SZSE_PRECISION * PRICE_INTER_STOCK_PRECISION / TOTALVALUETRADE_SZSE_PRECISION) }
    else if s.instrument_type = IType.FUND then
      Except.ok { s with TotalValueTrade := s.TotalValueTrade +
        e.LastQty * e.LastPx /
          (QTY_INTER_SZSE_PRECISION * PRICE_INTER_FUND_PRECISION / TOTALVALUETRADE_SZSE_PRECISION) }
    else if s.instrument_type = IType.KZZ then
      Except.ok { s with TotalValueTrade := s.TotalValueTrade +
        e.LastQty * e.LastPx /
          (QTY_INTER_SZSE_PRECISION * PRICE_INTER_KZZ_PRECISION / TOTALVALUETRADE_SZSE_PRECISION) }
    else Except.error "TypeError: TotalValueTrade plus None"
  else
    if s.instrument_type = IType.STOCK then
      Except.ok { s with TotalValueTrade := s.TotalValueTrade +
        e.LastQty * e.LastPx /
          (QTY_INTER_SSE_PRECISION * PRICE_INTER_STOCK_PRECISION / TOTALVALUETRADE_SSE_PRECISION) }
    else if s.instrument_type = IType.FUND then
      Except.ok { s with TotalValueTrade := s.TotalValueTrade +
        e.LastQty * e.LastPx /
          (QTY_INTER_SSE_PRECISION * PRICE_INTER_FUND_PRECISION / TOTALVALUETRADE_SZSE_PRECISION) }
    else Except.error "TypeError: TotalValueTrade plus None"

/-- AXOB.onTrade (axob.py 821-924).  Logging-only lines (the WARN on
unexpected continuous execs) are elided; the asserts are embedded as
Except.error. -/
def onTrade (s : AXOB) (e : ObExec) : Except String (AXOB × List SnapKind) :=
  let s := { s with NumTrades := s.NumTrades + 1
                    TotalVolumeTrade := s.TotalVolumeTrade + e.LastQty }
  match addTotalValueTrade s e with
  | Except.error err => Except.error err
  | Except.ok s =>
    let s := { s with LastPx := e.LastPx }
    let s :=
      if s.OpenPx = 0 then
        { s with OpenPx := e.LastPx, HighPx := e.LastPx, LowPx := e.LastPx }
      else
        let s := if s.HighPx < e.LastPx then { s with HighPx := e.LastPx } else s
        if e.LastPx < s.LowPx then { s with LowPx := e.LastPx } else s
    -- a held MARKET order followed by an execution naming neither held seq
    let unmatchedFlush : Except String (AXOB × List SnapKind) :=
      if s.holding_nb ≠ 0 then
        match s.holding_order with
        | none => Except.error "holding_nb set but no holding order"
        | some h =>
          if h.otype = OTYPE.MARKET ∧ h.applSeqNum ≠ e.BidApplSeqNum ∧
             h.applSeqNum ≠ e.OfferApplSeqNum then
            if s.market_subtype ≠ MSUB.SZSE_STK_GEM then
              Except.error "assert not CYB"
            else
              let s := insertOrder s h false
              let s := { s with holding_nb := 0 }
              let s := useTimestamp s h.TransactTime
              let r := genSnap s
              Except.ok (useTimestamp r.1 e.TransactTime, r.2)
          else Except.ok (s, [])
      else Except.ok (s, [])
    match unmatchedFlush with
    | Except.error err => Except.error err
    | Except.ok (s, emits0) =>
      if s.holding_nb ≠ 0 then
        match s.holding_order with
        | none => Except.error "holding_nb set but no holding order"
        | some h =>
          let levelSide := if e.BidApplSeqNum = h.applSeqNum then SIDE.ASK else SIDE.BID
          if h.qty < e.LastQty then Except.error "assert holding order Qty unmatch"
          else
            let s :=
              if h.qty = e.LastQty then { s with holding_nb := 0 }
              else
                let h1 := { h with qty := h.qty - e.LastQty }
                let h1 :=
                  if h1.otype = OTYPE.MARKET then { h1 with price := e.LastPx, traded := true }
                  else h1
                { s with holding_order := some h1 }
            let traded :=
              if levelSide = SIDE.ASK then tradeLimit s SIDE.ASK e.LastQty e.OfferApplSeqNum
              else tradeLimit s SIDE.BID e.LastQty e.BidApplSeqNum
            match traded with
            | Except.error err => Except.error err
            | Except.ok s =>
              let s :=
                match s.holding_order with
                | none => s
                | some h2 =>
                  if s.holding_nb ≠ 0 ∧ h2.otype = OTYPE.LIMIT ∧
                     ((h2.side = SIDE.BID ∧
                        (h2.price < s.ask_min_level_price ∨ s.ask_min_level_qty = 0)) ∨
                      (h2.side = SIDE.ASK ∧
                        (s.bid_max_level_price < h2.price ∨ s.bid_max_level_qty = 0))) then
                    { insertOrder s h2 false with holding_nb := 0 }
                  else s
              let s := if s.market_subtype = MSUB.SZSE_STK_GEM then enterCage s else s
              if s.holding_nb = 0 then
                let r := genSnap s
                Except.ok (r.1, emits0 ++ r.2)
              else Except.ok (s, emits0)
      else if s.bid_waiting_for_cage = true ∨ s.ask_waiting_for_cage = true then
        match tradeLimit s SIDE.ASK e.LastQty e.OfferApplSeqNum with
        | Except.error err => Except.error err
        | Except.ok s =>
          match tradeLimit s SIDE.BID e.LastQty e.BidApplSeqNum with
          | Except.error err => Except.error err
          | Except.ok s =>
            let s := if s.market_subtype = MSUB.SZSE_STK_GEM then enterCage s else s
            let r := genSnap s
            Except.ok (r.1, emits0 ++ r.2)
      else
        match tradeLimit s SIDE.ASK e.LastQty e.OfferApplSeqNum with
        | Except.error err => Except.error err
        | Except.ok s =>
          match tradeLimit s SIDE.BID e.LastQty e.BidApplSeqNum with
          | Except.error err => Except.error err
          | Except.ok s =>
            if s.ask_min_level_qty = 0 ∨ s.bid_max_level_qty = 0 ∨
               s.bid_max_level_price < s.ask_min_level_price then
              let s :=
                if s.TradingPhaseMarket = TPM.VolatilityBreaking then
                  { s with TradingPhaseMarket := e.TradingPhaseMarket }
                else s
              let r := genSnap s
              Except.ok (r.1, emits0 ++ r.2)
            else Except.ok (s, emits0)

/-- AXOB.onExec (axob.py 799-817): dispatch an execution to the trade
path, or decode an SZSE cancel-by-execution to the cancel path. -/
def onExec (s : AXOB) (e : AxsbeExe) : Except String (AXOB × List SnapKind) :=
  if e.ExecType = ExecType.Trade ∨ s.SecurityIDSource = Src.SSE then
    onTrade s (mkObExec e s.instrument_type)
  else
    if e.BidApplSeqNum ≠ 0 then
      onCancel s (mkObCancel e.BidApplSeqNum e.LastQty e.LastPx SIDE.BID e.TransactTime
        s.SecurityIDSource s.instrument_type)
    else
      onCancel s (mkObCancel e.OfferApplSeqNum e.LastQty e.LastPx SIDE.ASK e.TransactTime
        s.SecurityIDSource s.instrument_type)

/-- AXOB.onOrder (axob.py 628-690): flush a deferred holding order,
decode the message (SSE delete orders divert to the cancel path),
resolve self-side-optimal prices, then run the limit-order pipeline.
The market-order-before-any-level branch raises in the source. -/
def onOrder (s : AXOB) (order : AxsbeOrder) : Except String (AXOB × List SnapKind) :=
  let flush : Except String (AXOB × List SnapKind) :=
    if s.holding_nb ≠ 0 then
      match s.holding_order with
      | none => Except.error "holding_nb set but no holding order"
      | some h =>
        let s := insertOrder s h false
        let s := { s with holding_nb := 0 }
        let s := useTimestamp s h.TransactTime
        let r := genSnap s
        Except.ok (useTimestamp r.1 order.TransactTime, r.2)
    else Except.ok (s, [])
  match flush with
  | Except.error err => Except.error err
  | Except.ok (s, emits0) =>
    let decoded : Except String (Option ObOrder × Option ObCancel) :=
      if s.SecurityIDSource = Src.SZSE then
        Except.ok (some (mkObOrder order s.instrument_type), none)
      else
        if order.OrdType = OrdType.New then
          Except.ok (some (mkObOrder order s.instrument_type), none)
        else if order.OrdType = OrdType.Delete then
          match order.Side with
          | OrdSide.Buy =>
            Except.ok (none, some (mkObCancel order.OrderNo order.OrderQty order.Price SIDE.BID
              order.TransactTime s.SecurityIDSource s.instrument_type))
          | OrdSide.Sell =>
            Except.ok (none, some (mkObCancel order.OrderNo order.OrderQty order.Price SIDE.ASK
              order.TransactTime s.SecurityIDSource s.instrument_type))
          | OrdSide.Other => Except.error "NameError: Side unbound"
        else Except.error "NameError: order unbound"
    match decoded with
    | Except.error err => Except.error err
    | Except.ok (none, some c) =>
      match onCancel s c with
      | Except.error err => Except.error err
      | Except.ok (s1, es) => Except.ok (s1, emits0 ++ es)
    | Except.ok (some o, _) =>
      if o.otype = OTYPE.MARKET ∧ s.bid_max_level_qty = 0 ∧ s.ask_min_level_qty = 0 then
        Except.error "market order before any price level"
      else
        let o :=
          if o.otype = OTYPE.SIDE then
            if o.side = SIDE.BID then
              if s.bid_max_level_price ≠ 0 ∧ s.bid_max_level_qty ≠ 0 then
                { o with price := s.bid_max_level_price }
              else { o with price := s.DnLimitPrice }
            else
              if s.ask_min_level_price ≠ 0 ∧ s.ask_min_level_qty ≠ 0 then
                { o with price := s.ask_min_level_price }
              else { o with price := s.UpLimitPrice }
          else o
        let r := onLimitOrder s o
        Except.ok (r.1, emits0 ++ r.2)
    | Except.ok (none, none) => Except.error "unreachable decode"

/-- AXOB._check_sequence (axob.py 516-521): SZSE sequence regression
check (the ERROR log is elided; the Bool result drives the drop). -/
def checkSequence (s : AXOB) (ApplSeqNum : Int) : Bool :=
  decide (¬(s.SecurityIDSource = Src.SZSE ∧ ApplSeqNum ≤ s.last_inc_applSeqNum))

/-- AXOB._handle_order_msg (axob.py 500-514). -/
def handleOrderMsg (s : AXOB) (msg : AxsbeOrder) : Except String (AXOB × List SnapKind) :=
  if checkSequence s msg.ApplSeqNum = false then Except.ok (s, [])
  else if s.constantValue_ready = false then Except.error "assert constant values not ready"
  else
    let s := useTimestamp s msg.TransactTime
    let s :=
      if s.TradingPhaseMarket ≠ TPM.VolatilityBreaking then
        { s with TradingPhaseMarket := msg.TradingPhaseMarket }
      else s
    match onOrder s msg with
    | Except.error err => Except.error err
    | Except.ok (s1, es) =>
      let s1 :=
        if s1.SecurityIDSource = Src.SZSE then { s1 with last_inc_applSeqNum := msg.ApplSeqNum }
        else s1
      Except.ok (s1, es)

/-- AXOB._handle_exe_msg (axob.py 523-537). -/
def handleExeMsg (s : AXOB) (msg : AxsbeExe) : Except String (AXOB × List SnapKind) :=
  if checkSequence s msg.ApplSeqNum = false then Except.ok (s, [])
  else if s.constantValue_ready = false then Except.error "assert constant values not ready"
  else
    let s := useTimestamp s msg.TransactTime
    let s :=
      if s.TradingPhaseMarket ≠ TPM.VolatilityBreaking then
        { s with TradingPhaseMarket := msg.TradingPhaseMarket }
      else s
    match onExec s msg with
    | Except.error err => Except.error err
    | Except.ok (s1, es) =>
      let s1 :=
        if s1.SecurityIDSource = Src.SZSE then { s1 with last_inc_applSeqNum := msg.ApplSeqNum }
        else s1
      Except.ok (s1, es)

/-- AXOB._handleSignal (axob.py 539-542): the body is pass. -/
def handleSignal (s : AXOB) (_sig : AXSIG) : AXOB := s

/-- AXOB.profile (axob.py 1764-1772): update the profiling maxima. -/
def profile (s : AXOB) : AXOB :=
  let omSize : Int := s.order_map.length
  let ltSize : Int := s.bid_level_tree.length + s.ask_level_tree.length
  let bltSize : Int := s.bid_level_tree.length
  let altSize : Int := s.ask_level_tree.length
  let s := if s.pf_order_map_maxSize < omSize then { s with pf_order_map_maxSize := omSize } else s
  let s := if s.pf_level_tree_maxSize < ltSize then { s with pf_level_tree_maxSize := ltSize } else s
  let s :=
    if s.pf_bid_level_tree_maxSize < bltSize then { s with pf_bid_level_tree_maxSize := bltSize }
    else s
  let s :=
    if s.pf_ask_level_tree_maxSize < altSize then { s with pf_ask_level_tree_maxSize := altSize }
    else s
  let s :=
    if s.pf_AskWeightSize_max < s.AskWeightSize then { s with pf_AskWeightSize_max := s.AskWeightSize }
    else s
  let s :=
    if s.pf_AskWeightValue_max < s.AskWeightValue then { s with pf_AskWeightValue_max := s.AskWeightValue }
    else s
  let s :=
    if s.pf_BidWeightSize_max < s.BidWeightSize then { s with pf_BidWeightSize_max := s.BidWeightSize }
    else s
  if s.pf_BidWeightValue_max < s.BidWeightValue then { s with pf_BidWeightValue_max := s.BidWeightValue }
  else s

/-- The message universe dispatched by AXOB.onMsg.  The source dispatch
table also routes axsbe_snap_stock to onSnap; snapshot ingestion
(constants initialisation, close-price pickup and the reconciler) is
outside every claim and the snapshot row is therefore not part of this
embedding. -/
inductive AxMsg where
  | order (o : AxsbeOrder)
  | exe (e : AxsbeExe)
  | signal (sig : AXSIG)

/-- AXOB.onMsg (axob.py 544-564): dispatch by message type, drop
messages addressed to another SecurityID (signals carry none), then
count the message and update the profiling maxima. -/
def AXOB.onMsg (s : AXOB) (m : AxMsg) : Except String (AXOB × List SnapKind) :=
  match m with
  | AxMsg.signal sig =>
    let s := handleSignal s sig
    Except.ok (profile { s with msg_nb := s.msg_nb + 1 }, [])
  | AxMsg.order o =>
    if o.SecurityID ≠ s.SecurityID then Except.ok (s, [])
    else
      match handleOrderMsg s o with
      | Except.error err => Except.error err
      | Except.ok (s1, es) => Except.ok (profile { s1 with msg_nb := s1.msg_nb + 1 }, es)
  | AxMsg.exe e =>
    if e.SecurityID ≠ s.SecurityID then Except.ok (s, [])
    else
      match handleExeMsg s e with
      | Except.error err => Except.error err
      | Except.ok (s1, es) => Except.ok (profile { s1 with msg_nb := s1.msg_nb + 1 }, es)

/-- AXOB._get_match_price (axob.py 1483-1487). -/
def getMatchPrice (bid_price ask_price ref_price : Int) : Int :=
  if ask_price ≤ ref_price ∧ ref_price ≤ bid_price then ref_price
  else if |bid_price - ref_price| < |ask_price - ref_price| then bid_price
  else ask_price

/-- The while-loop of AXOB._calculate_call_auction_match (axob.py
1445-1479), embedded on the sorted (price, qty) level lists: bids in
descending and asks in ascending price order, each price paired with its
tree aggregate.  A cumulative register equal to 0 is reloaded from the
current level, as in the source.  Returns (price, volume). -/
def auctionMarch : List (Int × Int) → List (Int × Int) → Int → Int → Int → Int → Int →
    Int × Int
  | [], _, _, _, price, volume, _ => (price, volume)
  | _ :: _, [], _, _, price, volume, _ => (price, volume)
  | (bp, bq) :: bs, (ap, aq) :: asks, bidCum, askCum, price, volume, ref =>
    if bp < ap then (price, volume)
    else
      let bidCum := if bidCum = 0 then bq else bidCum
      let askCum := if askCum = 0 then aq else askCum
      let tradeQty := min bidCum askCum
      let volume := volume + tradeQty
      if bidCum < askCum then
        auctionMarch bs ((ap, aq) :: asks) 0 (askCum - tradeQty) bp volume ref
      else if askCum < bidCum then
        auctionMarch ((bp, bq) :: bs) asks (bidCum - tradeQty) 0 ap volume ref
      else
        auctionMarch bs asks 0 0 (getMatchPrice bp ap ref) volume ref
  termination_by bids asks _ _ _ _ _ => bids.length + asks.length
  decreasing_by all_goals simp_wf <;> omega

/-- AXOB._calculate_call_auction_match (axob.py 1435-1481): sort the
level-tree keys, pair each price with its aggregate (the tree lookup of
the source), choose ref as PrevClosePx before the first trade and LastPx
after, and march.  Returns the result as (price, volume). -/
def calcCallAuctionMatch (s : AXOB) : Int × Int :=
  let bids := (sortDesc (keysOf s.bid_level_tree)).map
    (fun p => (p, (alookup s.bid_level_tree p).getD 0))
  let asks := (sortAsc (keysOf s.ask_level_tree)).map
    (fun p => (p, (alookup s.ask_level_tree p).getD 0))
  let ref := if s.NumTrades = 0 then s.PrevClosePx else s.LastPx
  auctionMarch bids asks 0 0 0 0 ref

/-- The claim's own marching description of the call-auction indicative
match price, written from the spec text: march bids high-to-low and asks
low-to-high while bid price ≥ ask price, consume min(bid_cum, ask_cum),
record the price of the side whose cumulative quantity exhausts, and
when both sides exhaust at exactly the same cumulative quantity record
the ref tie-break.  The residual cumulative quantity of the surviving
side is kept in the head of its list. -/
def specMarch : List (Int × Int) → List (Int × Int) → Int → Int → Int
  | [], _, _, last => last
  | _ :: _, [], _, last => last
  | (bp, bq) :: bs, (ap, aq) :: asks, ref, last =>
    if bp < ap then last
    else
      let t := min bq aq
      if bq < aq then specMarch bs ((ap, aq - t) :: asks) ref bp
      else if aq < bq then specMarch ((bp, bq - t) :: bs) asks ref ap
      else specMarch bs asks ref (getMatchPrice bp ap ref)
  termination_by bids asks _ _ => bids.length + asks.length
  decreasing_by all_goals simp_wf <;> omega

/-- The spec-side indicative match over the same sorted level lists. -/
def specIndicativeMatch (s : AXOB) : Int :=
  let bids := (sortDesc (keysOf s.bid_level_tree)).map
    (fun p => (p, (alookup s.bid_level_tree p).getD 0))
  let asks := (sortAsc (keysOf s.ask_level_tree)).map
    (fun p => (p, (alookup s.ask_level_tree p).getD 0))
  let ref := if s.NumTrades = 0 then s.PrevClosePx else s.LastPx
  specMarch bids asks ref 0

/-- Overwrite the head quantity of a level list with a non-zero residual
cumulative register (0 means the register is about to reload). -/
def patchHead : List (Int × Int) → Int → List (Int × Int)
  | [], _ => []
  | (p, q) :: t, c => (p, if c = 0 then q else c) :: t

theorem patchHead_zero (l : List (Int × Int)) : patchHead l 0 = l := by
  cases l with
  | nil => rfl
  | cons h t => cases h; simp [patchHead]

theorem auctionMarch_eq_specMarch_aux :
    ∀ (n : Nat) (bids asks : List (Int × Int)) (bc ac price volume ref : Int),
      bids.length + asks.length ≤ n →
      (auctionMarch bids asks bc ac price volume ref).1 =
        specMarch (patchHead bids bc) (patchHead asks ac) ref price := by
  intro n
  induction n with
  | zero =>
    intro bids asks bc ac price volume ref hn
    match bids, asks with
    | [], asks => simp [auctionMarch, patchHead, specMarch]
    | b :: bs, asks => simp at hn
  | succ n ih =>
    intro bids asks bc ac price volume ref hn
    match bids, asks with
    | [], asks => simp [auctionMarch, patchHead, specMarch]
    | (bp, bq) :: bs, [] => simp [auctionMarch, patchHead, specMarch]
    | (bp, bq) :: bs, (ap, aq) :: asks =>
      simp only [patchHead]
      rw [auctionMarch, specMarch]
      by_cases hba : bp < ap
      · simp [hba]
      · simp only [if_neg hba]
        split_ifs
        all_goals
          refine (ih _ _ _ _ _ _ _ (by simp only [List.length_cons] at hn ⊢; omega)).trans ?_
        all_goals rw [patchHead_zero]
        all_goals
          first
          | rfl
          | rw [patchHead_zero]
          | (simp only [patchHead]; rw [if_neg (by omega)])

/-- C6: for every pair of bid/ask level sets, the call-auction indicative
match price computed by the source loop (index marching with cumulative
registers reloaded from the tree) equals the spec description: march bid
prices high-to-low and ask prices low-to-high while bid ≥ ask, consume
min(bid_cum, ask_cum) at each step recording the price of the exhausting
side, and on an exactly-equal mutual exhaustion record ref (prev-close
before the first trade, else last price) when bid ≥ ref ≥ ask and
otherwise the strictly closer of the two prices (when the distances tie
the two prices coincide, since the march guarantees bid ≥ ask). -/
theorem call_auction_match_follows_spec_march (s : AXOB) :
    (calcCallAuctionMatch s).1 = specIndicativeMatch s := by
  simp only [calcCallAuctionMatch, specIndicativeMatch]
  refine (auctionMarch_eq_specMarch_aux _ _ _ 0 0 0 0 _ (le_refl _)).trans ?_
  rw [patchHead_zero, patchHead_zero]

/-- Modelled from the spec: the message universe routed by MU.onMsg
(order / execution / snapshot / status); the axsbe message classes are
not under src/.  Each constructor carries the fields the MU code reads:
SecurityID (absent on status, whose getattr returns None), ChannelNo,
HHMMSSms and TradingPhaseMarket. -/
inductive MuMsg where
  | order (SecurityID ChannelNo HHMMSSms : Int) (tpm : TPM)
  | exe (SecurityID ChannelNo HHMMSSms : Int) (tpm : TPM)
  | snap (SecurityID ChannelNo HHMMSSms : Int) (tpm : TPM)
  | status (ChannelNo : Int) (tpm : TPM)
  deriving DecidableEq

/-- getattr(msg, SecurityID, None): status messages carry none. -/
def MuMsg.secId : MuMsg → Option Int
  | .order sid _ _ _ => some sid
  | .exe sid _ _ _ => some sid
  | .snap sid _ _ _ => some sid
  | .status _ _ => none

/-- Per-channel record of MU.channel_map: phase and registered symbols
(the Python set of sids embedded as a duplicate-free list). -/
structure MuChannel where
  tpm : TPM
  sids : List Int
  deriving DecidableEq

/-- MU state (mu.py MU slots; the logger is elided and the per-symbol
AXOB instances are carried as the list of registered SecurityIDs, with
deliveries reported as events). -/
structure MuState where
  SecurityIDSource : Src
  channel_map : List (Int × MuChannel)
  axobs : List Int
  msg_nb : Int
  deriving DecidableEq

/-- Observable delivery events of MU.onMsg: a phase signal pushed to a
symbol, or the triggering message forwarded to its symbol. -/
inductive MuEvent where
  | signal (sid : Int) (sig : AXSIG)
  | deliver (sid : Int)
  deriving DecidableEq

/-- set.add embedded on the duplicate-free sid list. -/
def addSid (sid : Int) (sids : List Int) : List Int :=
  if sid ∈ sids then sids else sids ++ [sid]

/-- MU._is_opencall_start (mu.py 47-56). -/
def isOpencallStart : MuMsg → Bool
  | .order _ _ _ _ => true
  | .exe _ _ _ _ => true
  | .status _ tpm => tpm = TPM.OpenCall
  | .snap _ _ t tpm => decide (91500000 ≤ t) || decide (tpm = TPM.OpenCall)

/-- MU._is_opencall_end (mu.py 58-67).  The status check compares with
TPM.ContinuousAutomaticMatching, an attribute the modelled TPM does not
carry (it is SSE status vocabulary); no status message can equal it, so
the status row is false. -/
def isOpencallEnd : MuMsg → Bool
  | .exe _ _ _ tpm => tpm = TPM.PreTradingBreaking
  | .status _ _ => false
  | .snap _ _ t _ => decide (92515000 ≤ t)
  | _ => false

/-- MU._is_amtrading_start (mu.py 69-76). -/
def isAmtradingStart : MuMsg → Bool
  | .order _ _ _ tpm => tpm = TPM.AMTrading
  | .exe _ _ _ tpm => tpm = TPM.AMTrading
  | .snap _ _ t _ => decide (93000000 ≤ t)
  | _ => false

/-- MU._is_amtrading_end (mu.py 78-80). -/
def isAmtradingEnd : MuMsg → Bool
  | .snap _ _ t _ => decide (113015000 ≤ t)
  | _ => false

/-- MU._is_pmtrading_start (mu.py 82-86). -/
def isPmtradingStart : MuMsg → Bool
  | .order _ _ _ _ => true
  | .exe _ _ _ _ => true
  | .snap _ _ t _ => decide (130000000 ≤ t)
  | _ => false

/-- MU._is_pmtrading_end (mu.py 88-95). -/
def isPmtradingEnd : MuMsg → Bool
  | .order _ _ _ tpm => tpm = TPM.CloseCall
  | .exe _ _ _ tpm => tpm = TPM.CloseCall
  | .snap _ _ t _ => decide (145715000 ≤ t)
  | _ => false

/-- MU._is_closecall_end (mu.py 97-106).  As with isOpencallEnd, the
status row compares against SSE status vocabulary (TPM.Closing) outside
the modelled market phases and is false here. -/
def isClosecallEnd : MuMsg → Bool
  | .exe _ _ _ tpm => tpm = TPM.Ending
  | .status _ _ => false
  | .snap _ _ t _ => decide (150015000 ≤ t)
  | _ => false

/-- The transition lookup table of MU._check_phase_transition
(mu.py 113-121): target phase, trigger predicate and signal, keyed by
the current phase; phases outside the table have no entry. -/
def muTransitionFor : TPM → Option (TPM × (MuMsg → Bool) × AXSIG)
  | TPM.Starting => some (TPM.OpenCall, isOpencallStart, AXSIG.OPENCALL_BGN)
  | TPM.OpenCall => some (TPM.PreTradingBreaking, isOpencallEnd, AXSIG.OPENCALL_END)
  | TPM.PreTradingBreaking => some (TPM.AMTrading, isAmtradingStart, AXSIG.AMTRADING_BGN)
  | TPM.AMTrading => some (TPM.Breaking, isAmtradingEnd, AXSIG.AMTRADING_END)
  | TPM.Breaking => some (TPM.PMTrading, isPmtradingStart, AXSIG.PMTRADING_BGN)
  | TPM.PMTrading => some (TPM.CloseCall, isPmtradingEnd, AXSIG.PMTRADING_END)
  | TPM.CloseCall => some (TPM.Ending, isClosecallEnd, AXSIG.ALL_END)
  | _ => none

/-- MU._check_phase_transition (mu.py 108-131): on a firing trigger,
advance the channel phase and push the signal to every symbol registered
on the channel (the batch loop over channel sids, reported as events). -/
def checkPhaseTransition (m : MuMsg) (ch : MuChannel) : MuChannel × List MuEvent :=
  match muTransitionFor ch.tpm with
  | none => (ch, [])
  | some (newPhase, checkFun, sig) =>
    if checkFun m = true then
      ({ ch with tpm := newPhase }, ch.sids.map (fun sid => MuEvent.signal sid sig))
    else (ch, [])

/-- MU._get_channel_no (mu.py 162-169). -/
def getChannelNo (s : MuState) (m : MuMsg) : Int :=
  if s.SecurityIDSource = Src.SZSE then
    match m with
    | .order _ cn _ _ => cn - 2000
    | .exe _ cn _ _ => cn - 2000
    | .snap _ cn _ _ => cn - 1000
    | .status _ _ => 0
  else 0

/-- MU.onMsg (mu.py 133-160): drop messages without a registered
SecurityID, initialise the channel record on first sight, register the
symbol on the channel, run the phase-transition check (which pushes
signals to every symbol of the channel), then forward the message to the
addressed symbol.  Events are reported in delivery order. -/
def MU.onMsg (s : MuState) (m : MuMsg) : MuState × List MuEvent :=
  match m.secId with
  | none => (s, [])
  | some sid =>
    if sid ∈ s.axobs then
      let cn := getChannelNo s m
      let ch0 :=
        match alookup s.channel_map cn with
        | some ch => ch
        | none => { tpm := TPM.Starting, sids := [] }
      let ch1 := { ch0 with sids := addSid sid ch0.sids }
      let r := checkPhaseTransition m ch1
      ({ s with channel_map := setKey s.channel_map cn r.1, msg_nb := s.msg_nb + 1 },
       r.2 ++ [MuEvent.deliver sid])
    else (s, [])

/-- The linear phase chain of the claim (spec section 4.10): the unique
successor of each phase, written from the spec table. -/
def chainNext : TPM → Option TPM
  | TPM.Starting => some TPM.OpenCall
  | TPM.OpenCall => some TPM.PreTradingBreaking
  | TPM.PreTradingBreaking => some TPM.AMTrading
  | TPM.AMTrading => some TPM.Breaking
  | TPM.Breaking => some TPM.PMTrading
  | TPM.PMTrading => some TPM.CloseCall
  | TPM.CloseCall => some TPM.Ending
  | _ => none

theorem alookup_setKey_self {α : Type} (l : List (Int × α)) (p : Int) (v : α) :
    alookup (setKey l p v) p = some v := by
  induction l with
  | nil => simp [setKey, alookup]
  | cons h t ih =>
    obtain ⟨k, w⟩ := h
    by_cases hk : k = p
    · simp [setKey, hk, alookup]
    · simp [setKey, hk, alookup, ih]

theorem alookup_setKey_other {α : Type} (l : List (Int × α)) (p k : Int) (v : α)
    (hne : k ≠ p) : alookup (setKey l p v) k = alookup l k := by
  induction l with
  | nil => simp [setKey, alookup, Ne.symm hne]
  | cons h t ih =>
    obtain ⟨k0, w⟩ := h
    by_cases hk : k0 = p
    · subst hk
      simp [setKey, alookup, Ne.symm hne]
    · simp [setKey, hk, alookup, ih]

theorem alookup_none_of_not_mem {α : Type} (l : List (Int × α)) (p : Int)
    (h : p ∉ keysOf l) : alookup l p = none := by
  induction l with
  | nil => rfl
  | cons hd t ih =>
    obtain ⟨k, w⟩ := hd
    rw [keysOf, List.map_cons, List.mem_cons] at h
    push_neg at h
    have ht : alookup t p = none := ih (by rw [keysOf]; exact h.2)
    simp [alookup, Ne.symm h.1, ht]

theorem alookup_erase_setKey_self {α : Type} (l : List (Int × α)) (p : Int) (v : α)
    (hnd : (keysOf l).Nodup) : alookup (eraseKey (setKey l p v) p) p = none := by
  induction l with
  | nil => simp [setKey, eraseKey, alookup]
  | cons hd t ih =>
    obtain ⟨k, w⟩ := hd
    rw [keysOf, List.map_cons, List.nodup_cons] at hnd
    by_cases hk : k = p
    · subst hk
      simp only [setKey, if_pos rfl, eraseKey, if_pos rfl]
      exact alookup_none_of_not_mem t k (by rw [keysOf]; exact hnd.1)
    · simp only [setKey, if_neg hk, eraseKey, if_neg hk, alookup]
      exact ih (by rw [keysOf]; exact hnd.2)

theorem sumVals_setKey (l : List (Int × Int)) (p v q0 : Int)
    (h : alookup l p = some q0) : sumVals (setKey l p v) = sumVals l - q0 + v := by
  induction l with
  | nil => simp [alookup] at h
  | cons hd t ih =>
    obtain ⟨k, w⟩ := hd
    by_cases hk : k = p
    · subst hk
      rw [alookup, if_pos rfl] at h
      cases h
      rw [setKey, if_pos rfl]
      simp only [sumVals]
      omega
    · rw [alookup, if_neg hk] at h
      rw [setKey, if_neg hk]
      simp only [sumVals, ih h]
      omega

theorem sumVals_eraseKey (l : List (Int × Int)) (p q0 : Int)
    (h : alookup l p = some q0) : sumVals (eraseKey l p) = sumVals l - q0 := by
  induction l with
  | nil => simp [alookup] at h
  | cons hd t ih =>
    obtain ⟨k, w⟩ := hd
    by_cases hk : k = p
    · subst hk
      rw [alookup, if_pos rfl] at h
      cases h
      rw [eraseKey, if_pos rfl]
      simp only [sumVals]
      omega
    · rw [alookup, if_neg hk] at h
      rw [eraseKey, if_neg hk]
      simp only [sumVals, ih h]
      omega

theorem genSnap_fst (s : AXOB) : (genSnap s).1 = s := by
  unfold genSnap
  split_ifs <;> rfl

theorem genSnap_AMTrading_stock (s : AXOB) (hph : s.TradingPhaseMarket = TPM.AMTrading)
    (hit : s.instrument_type = IType.STOCK) : (genSnap s).2 = [SnapKind.trading] := by
  unfold genSnap tradingSnapEmit
  simp [hph, hit, TPM.code]

/-- The projections of AXOB state that the cage admission scan never
touches: registry, illegal set, level trees, phase, instrument, close
flag, holding slot. -/
def cageFrameView (s : AXOB) :
    List (Int × ObOrder) × List (Int × ObOrder) × List (Int × Int) × List (Int × Int) ×
      TPM × IType × Bool × Int × Option ObOrder :=
  (s.order_map, s.illegal_order_map, s.bid_level_tree, s.ask_level_tree,
   s.TradingPhaseMarket, s.instrument_type, s.closePx_ready, s.holding_nb, s.holding_order)

theorem updateNextBidCageOrder_view (x : AXOB) :
    cageFrameView (updateNextBidCageOrder x) = cageFrameView x := by
  unfold updateNextBidCageOrder
  dsimp only
  split <;> rfl

theorem updateNextAskCageOrder_view (x : AXOB) :
    cageFrameView (updateNextAskCageOrder x) = cageFrameView x := by
  unfold updateNextAskCageOrder
  dsimp only
  split <;> rfl

theorem enterBidCage_view (x : AXOB) : cageFrameView (enterBidCage x) = cageFrameView x := by
  unfold enterBidCage
  rw [updateNextBidCageOrder_view]
  split_ifs <;> rfl

theorem enterAskCage_view (x : AXOB) : cageFrameView (enterAskCage x) = cageFrameView x := by
  unfold enterAskCage
  rw [updateNextAskCageOrder_view]
  split_ifs <;> rfl

theorem processBidCageOrders_view (s : AXOB) :
    cageFrameView (processBidCageOrders s).1 = cageFrameView s := by
  unfold processBidCageOrders
  split_ifs <;> first | rfl | exact enterBidCage_view s

theorem processAskCageOrders_view (s : AXOB) :
    cageFrameView (processAskCageOrders s).1 = cageFrameView s := by
  unfold processAskCageOrders
  split_ifs <;> first | rfl | exact enterAskCage_view s

theorem enterCageLoop_view (n : Nat) :
    ∀ s : AXOB, cageFrameView (enterCageLoop n s) = cageFrameView s := by
  induction n with
  | zero => intro s; rfl
  | succ n ih =>
    intro s
    have hview : cageFrameView (processCageOrders s).1 = cageFrameView s := by
      unfold processCageOrders
      dsimp only
      rw [processAskCageOrders_view, processBidCageOrders_view]
    unfold enterCageLoop
    dsimp only
    by_cases h : (processCageOrders s).2 = true
    · rw [if_pos h, ih, hview]
    · rw [if_neg h, hview]

theorem enterCage_view (s : AXOB) : cageFrameView (enterCage s) = cageFrameView s := by
  unfold enterCage
  dsimp only
  exact enterCageLoop_view _ s

theorem enterCage_flags (s : AXOB) :
    (enterCage s).bid_waiting_for_cage = false ∧ (enterCage s).ask_waiting_for_cage = false := by
  unfold enterCage
  exact ⟨rfl, rfl⟩

theorem dequeueBidLevel_none (s : AXOB) (p qty : Int)
    (h : alookup s.bid_level_tree p = none) : dequeueBidLevel s p qty = s := by
  unfold dequeueBidLevel
  rw [h]

theorem dequeueAskLevel_none (s : AXOB) (p qty : Int)
    (h : alookup s.ask_level_tree p = none) : dequeueAskLevel s p qty = s := by
  unfold dequeueAskLevel
  rw [h]

theorem dequeueBidLevel_some (s : AXOB) (p qty q0 : Int)
    (h : alookup s.bid_level_tree p = some q0) :
    (dequeueBidLevel s p qty).order_map = s.order_map ∧
    (dequeueBidLevel s p qty).illegal_order_map = s.illegal_order_map ∧
    (dequeueBidLevel s p qty).TradingPhaseMarket = s.TradingPhaseMarket ∧
    (dequeueBidLevel s p qty).instrument_type = s.instrument_type ∧
    (dequeueBidLevel s p qty).market_subtype = s.market_subtype ∧
    (dequeueBidLevel s p qty).ask_level_tree = s.ask_level_tree ∧
    (dequeueBidLevel s p qty).bid_level_tree =
      (if q0 - qty ≤ 0 then eraseKey (setKey s.bid_level_tree p (q0 - qty)) p
       else setKey s.bid_level_tree p (q0 - qty)) := by
  unfold dequeueBidLevel updateBidMax
  rw [h]
  dsimp only
  split_ifs <;> exact ⟨rfl, rfl, rfl, rfl, rfl, rfl, rfl⟩

theorem dequeueAskLevel_some (s : AXOB) (p qty q0 : Int)
    (h : alookup s.ask_level_tree p = some q0) :
    (dequeueAskLevel s p qty).order_map = s.order_map ∧
    (dequeueAskLevel s p qty).illegal_order_map = s.illegal_order_map ∧
    (dequeueAskLevel s p qty).TradingPhaseMarket = s.TradingPhaseMarket ∧
    (dequeueAskLevel s p qty).instrument_type = s.instrument_type ∧
    (dequeueAskLevel s p qty).market_subtype = s.market_subtype ∧
    (dequeueAskLevel s p qty).bid_level_tree = s.bid_level_tree ∧
    (dequeueAskLevel s p qty).ask_level_tree =
      (if q0 - qty ≤ 0 then eraseKey (setKey s.ask_level_tree p (q0 - qty)) p
       else setKey s.ask_level_tree p (q0 - qty)) := by
  unfold dequeueAskLevel updateAskMin
  rw [h]
  dsimp only
  split_ifs <;> exact ⟨rfl, rfl, rfl, rfl, rfl, rfl, rfl⟩

/-- The level tree a levelDequeue call touches: BID selects the bid
tree, any other side the ask tree, matching the source dispatch. -/
def sideTree (s : AXOB) (side : SIDE) : List (Int × Int) :=
  if side = SIDE.BID then s.bid_level_tree else s.ask_level_tree

theorem sumVals_dequeued (l : List (Int × Int)) (p qty q0 : Int)
    (h : alookup l p = some q0) (hq0 : qty ≤ q0) :
    sumVals (if q0 - qty ≤ 0 then eraseKey (setKey l p (q0 - qty)) p
             else setKey l p (q0 - qty)) = sumVals l - qty := by
  by_cases hz : q0 - qty ≤ 0
  · rw [if_pos hz]
    rw [sumVals_eraseKey (setKey l p (q0 - qty)) p (q0 - qty) (alookup_setKey_self l p (q0 - qty))]
    rw [sumVals_setKey l p (q0 - qty) q0 h]
    omega
  · rw [if_neg hz]
    rw [sumVals_setKey l p (q0 - qty) q0 h]
    omega

/-- Sum of the registry quantities of one side (the right-hand side of
the spec invariant Σ level.aggregateQty = Σ registry.qty). -/
def sumRegistryQty : List (Int × ObOrder) → SIDE → Int
  | [], _ => 0
  | (_, o) :: t, side => (if o.side = side then o.qty else 0) + sumRegistryQty t side

/-- The per-side aggregation invariant of the claim, as a decidable
check: for each side, the sum of level aggregates equals the sum of the
registry quantities for that side. -/
def sideSumInvariantB (s : AXOB) : Bool :=
  decide (sumVals s.bid_level_tree = sumRegistryQty s.order_map SIDE.BID ∧
          sumVals s.ask_level_tree = sumRegistryQty s.order_map SIDE.ASK)

/-- C1 amended: an execution touches only the price-level aggregate.
When the named order is in the registry, tradeLimit succeeds, leaves the
order registry entirely unchanged (the source has the partial-execution
decrement order.qty -= traded commented out and never removes fully
executed orders), and decrements the side level sum by exactly the
traded quantity. -/
theorem trade_decrements_level_only (s : AXOB) (side : SIDE) (Qty seq q0 : Int) (o : ObOrder)
    (hseq : alookup s.order_map seq = some o)
    (hlv : alookup (sideTree s side) o.price = some q0)
    (hq0 : Qty ≤ q0) :
    ∃ s1, tradeLimit s side Qty seq = Except.ok s1 ∧
      s1.order_map = s.order_map ∧
      sumVals (sideTree s1 side) = sumVals (sideTree s side) - Qty := by
  unfold tradeLimit
  rw [hseq]
  refine ⟨levelDequeue s side o.price Qty, rfl, ?_, ?_⟩
  · unfold levelDequeue
    by_cases hb : side = SIDE.BID
    · rw [if_pos hb]
      have hlvb : alookup s.bid_level_tree o.price = some q0 := by
        unfold sideTree at hlv
        rwa [if_pos hb] at hlv
      exact (dequeueBidLevel_some s o.price Qty q0 hlvb).1
    · rw [if_neg hb]
      have hlva : alookup s.ask_level_tree o.price = some q0 := by
        unfold sideTree at hlv
        rwa [if_neg hb] at hlv
      exact (dequeueAskLevel_some s o.price Qty q0 hlva).1
  · unfold levelDequeue sideTree
    by_cases hb : side = SIDE.BID
    · simp only [if_pos hb]
      have hlvb : alookup s.bid_level_tree o.price = some q0 := by
        unfold sideTree at hlv
        rwa [if_pos hb] at hlv
      rw [(dequeueBidLevel_some s o.price Qty q0 hlvb).2.2.2.2.2.2]
      exact sumVals_dequeued s.bid_level_tree o.price Qty q0 hlvb hq0
    · simp only [if_neg hb]
      have hlva : alookup s.ask_level_tree o.price = some q0 := by
        unfold sideTree at hlv
        rwa [if_neg hb] at hlv
      rw [(dequeueAskLevel_some s o.price Qty q0 hlva).2.2.2.2.2.2]
      exact sumVals_dequeued s.ask_level_tree o.price Qty q0 hlva hq0

/-- A resting ask order 10.00 x 2.00 (internal price 1000, qty 200). -/
def c1Ask : ObOrder :=
  { applSeqNum := 1, price := 1000, qty := 200, side := SIDE.ASK, otype := OTYPE.LIMIT,
    traded := false, TransactTime := 91500000 }

/-- A resting bid order 10.00 x 1.50 (internal price 1000, qty 150). -/
def c1Bid : ObOrder :=
  { applSeqNum := 2, price := 1000, qty := 150, side := SIDE.BID, otype := OTYPE.LIMIT,
    traded := false, TransactTime := 91600000 }

/-- A quiescent SZSE main-board stock book in OpenCall holding the two
crossing resting orders of scenario C1: the aggregation invariant holds
here, before the call-auction execution arrives. -/
def c1State : AXOB :=
  { AXOB.init 2 Src.SZSE IType.STOCK with
      constantValue_ready := true
      TradingPhaseMarket := TPM.OpenCall
      order_map := [(1, c1Ask), (2, c1Bid)]
      ask_level_tree := [(1000, 200)]
      bid_level_tree := [(1000, 150)]
      ask_min_level_price := 1000
      ask_min_level_qty := 200
      bid_max_level_price := 1000
      bid_max_level_qty := 150
      AskWeightSize := 200
      AskWeightValue := 200000
      BidWeightSize := 150
      BidWeightValue := 150000
      PrevClosePx := 1000
      last_inc_applSeqNum := 2 }

/-- The call-auction execution trading 1.50 between the two resting
orders of c1State (a partial fill of the ask, a full fill of the bid). -/
def c1Exec : AxsbeExe :=
  { SecurityIDSource := Src.SZSE, SecurityID := 2, ChannelNo := 2000, ApplSeqNum := 3,
    TransactTime := 92500010, BidApplSeqNum := 2, OfferApplSeqNum := 1,
    LastPx := 100000, LastQty := 150, ExecType := ExecType.Trade,
    TradingPhaseMarket := TPM.OpenCall }

/-- The book state produced by processing c1Exec on c1State. -/
def c1ResultState : Option AXOB :=
  match handleExeMsg c1State c1Exec with
  | Except.ok (s, _) => some s
  | Except.error _ => none

/-- C1 counterexample: on the quiescent state c1State the per-side
aggregation invariant holds, the execution message c1Exec is processed
without error, and afterwards the invariant is FALSE: the partially
executed ask seq 1 still carries registry qty 200 (not 200-150) and the
fully executed bid seq 2 is still in the registry, while the level
aggregates were decremented. -/
theorem c1_invariant_broken_by_execution :
    sideSumInvariantB c1State = true ∧
    c1ResultState.map sideSumInvariantB = some false ∧
    c1ResultState.map (fun s => (alookup s.order_map 1).map ObOrder.qty) = some (some 200) ∧
    c1ResultState.map (fun s => ((alookup s.order_map 2).map ObOrder.qty)) = some (some 150) ∧
    c1ResultState.map (fun s => alookup s.ask_level_tree 1000) = some (some 50) ∧
    c1ResultState.map (fun s => alookup s.bid_level_tree 1000) = some none := by
  decide

/-- Witness for trade_decrements_level_only: a book with one resting ask
300 at price 1000 under seq 5, partially executed for 100. -/
def c1WitnessState : AXOB :=
  { AXOB.init 7 Src.SZSE IType.STOCK with
      order_map := [(5, { applSeqNum := 5, price := 1000, qty := 300, side := SIDE.ASK,
                          otype := OTYPE.LIMIT, traded := false, TransactTime := 0 })]
      ask_level_tree := [(1000, 300)]
      ask_min_level_price := 1000
      ask_min_level_qty := 300 }

/-- Witness applying trade_decrements_level_only at a concrete input. -/
theorem trade_decrements_level_only_witness :
    ∃ s1, tradeLimit c1WitnessState SIDE.ASK 100 5 = Except.ok s1 ∧
      s1.order_map = c1WitnessState.order_map ∧
      sumVals (sideTree s1 SIDE.ASK) = sumVals (sideTree c1WitnessState SIDE.ASK) - 100 := by
  exact trade_decrements_level_only c1WitnessState SIDE.ASK 100 5 300
    { applSeqNum := 5, price := 1000, qty := 300, side := SIDE.ASK,
      otype := OTYPE.LIMIT, traded := false, TransactTime := 0 }
    (by decide) (by decide) (by decide)

/-- An AXOB with an empty registry, ready for continuous trading. -/
def c5State : AXOB :=
  { AXOB.init 300001 Src.SZSE IType.STOCK with
      constantValue_ready := true
      TradingPhaseMarket := TPM.AMTrading }

/-- An execution naming applSeqNum 42 / 43, neither in the registry. -/
def c5Exec : AxsbeExe :=
  { SecurityIDSource := Src.SZSE, SecurityID := 300001, ChannelNo := 2000, ApplSeqNum := 9,
    TransactTime := 93000010, BidApplSeqNum := 43, OfferApplSeqNum := 42,
    LastPx := 100000, LastQty := 10, ExecType := ExecType.Trade,
    TradingPhaseMarket := TPM.AMTrading }

/-- C5: an execution naming an applSeqNum that is not in the registry is
NOT merely logged and survived: after the source logs the ERROR it
unconditionally indexes order_map and a KeyError propagates to the
caller, so handleExeMsg raises instead of continuing. -/
theorem missing_registry_trade_raises :
    handleExeMsg c5State c5Exec = Except.error "KeyError: traded order not found" := by
  rfl

/-- The AXOB projections the claim C10 lists as untouched by a phase
signal: registry, illegal set, level trees, cached bests, weighted
totals, cage state, holding slot, session counters and OHLC, phase. -/
def bookSessionView (s : AXOB) :
    List (Int × ObOrder) × List (Int × ObOrder) × List (Int × Int) × List (Int × Int) ×
      Int × Int × Int × Int × Int × Int × Int × Int ×
      Int × Int × Int × Int × Int × Int × Bool × Bool ×
      Option ObOrder × Int × Int × Int × Int × Int × Int × Int × Int × TPM × Int :=
  (s.order_map, s.illegal_order_map, s.bid_level_tree, s.ask_level_tree,
   s.bid_max_level_price, s.bid_max_level_qty, s.ask_min_level_price, s.ask_min_level_qty,
   s.BidWeightSize, s.BidWeightValue, s.AskWeightSize, s.AskWeightValue,
   s.bid_cage_upper_ex_min_level_price, s.bid_cage_upper_ex_min_level_qty,
   s.ask_cage_lower_ex_max_level_price, s.ask_cage_lower_ex_max_level_qty,
   s.bid_cage_ref_px, s.ask_cage_ref_px, s.bid_waiting_for_cage, s.ask_waiting_for_cage,
   s.holding_order, s.holding_nb, s.NumTrades, s.TotalVolumeTrade, s.TotalValueTrade,
   s.LastPx, s.OpenPx, s.HighPx, s.LowPx, s.TradingPhaseMarket, s.last_inc_applSeqNum)

theorem pf_ite_proj {β : Type} (f : AXOB → β) (c : Prop) [Decidable c] (a b : AXOB)
    (h1 : f a = f b) : f (if c then a else b) = f b := by
  split_ifs
  · exact h1
  · rfl

theorem profile_view (s : AXOB) : bookSessionView (profile s) = bookSessionView s := by
  unfold profile
  repeat refine Eq.trans (pf_ite_proj bookSessionView _ _ _ rfl) ?_
  rfl

theorem profile_msgnb (s : AXOB) : (profile s).msg_nb = s.msg_nb := by
  unfold profile
  repeat refine Eq.trans (pf_ite_proj (fun x => x.msg_nb) _ _ _ rfl) ?_
  rfl

/-- C10: delivering any AX_SIGNAL phase signal to AXOB.onMsg is a no-op
on all book and session state: the handler body is pass, no snapshot is
emitted, and only the test-only message counter (and the profiling
maxima inside profile) change. -/
theorem ax_signal_is_noop (s : AXOB) (sig : AXSIG) :
    AXOB.onMsg s (AxMsg.signal sig) =
      Except.ok (profile { s with msg_nb := s.msg_nb + 1 }, []) ∧
    bookSessionView (profile { s with msg_nb := s.msg_nb + 1 }) = bookSessionView s ∧
    (profile { s with msg_nb := s.msg_nb + 1 }).msg_nb = s.msg_nb + 1 := by
  refine ⟨rfl, profile_view _, ?_⟩
  rw [profile_msgnb]

/-- C3: for an SZSE instrument, an order or execution message whose
ApplSeqNum is at most the last handled ApplSeqNum is dropped by the
sequence check after logging: the handler returns with the whole engine
state unchanged (registry, trees, phase, clock, last_inc_applSeqNum and
everything else) and nothing is emitted. -/
theorem szse_seq_regression_dropped (s : AXOB) (o : AxsbeOrder) (e : AxsbeExe)
    (hsrc : s.SecurityIDSource = Src.SZSE)
    (ho : o.ApplSeqNum ≤ s.last_inc_applSeqNum)
    (he : e.ApplSeqNum ≤ s.last_inc_applSeqNum) :
    handleOrderMsg s o = Except.ok (s, []) ∧ handleExeMsg s e = Except.ok (s, []) := by
  constructor
  · have hc : checkSequence s o.ApplSeqNum = false := by
      unfold checkSequence
      simp only [decide_eq_false_iff_not, not_not]
      exact ⟨hsrc, ho⟩
    unfold handleOrderMsg
    simp [hc]
  · have hc : checkSequence s e.ApplSeqNum = false := by
      unfold checkSequence
      simp only [decide_eq_false_iff_not, not_not]
      exact ⟨hsrc, he⟩
    unfold handleExeMsg
    simp [hc]

/-- An SZSE book whose last handled ApplSeqNum is 5. -/
def c3State : AXOB :=
  { AXOB.init 1 Src.SZSE IType.STOCK with
      constantValue_ready := true
      last_inc_applSeqNum := 5 }

/-- A regressed order message, ApplSeqNum 3 ≤ 5. -/
def c3Order : AxsbeOrder :=
  { SecurityIDSource := Src.SZSE, SecurityID := 1, ChannelNo := 2000, ApplSeqNum := 3,
    TransactTime := 93000010, Side := OrdSide.Buy, OrdType := OrdType.Limit,
    Price := 100000, OrderQty := 100, OrderNo := 0, TradingPhaseMarket := TPM.AMTrading }

/-- A regressed execution message, ApplSeqNum 4 ≤ 5. -/
def c3Exec : AxsbeExe :=
  { SecurityIDSource := Src.SZSE, SecurityID := 1, ChannelNo := 2000, ApplSeqNum := 4,
    TransactTime := 93000010, BidApplSeqNum := 1, OfferApplSeqNum := 2,
    LastPx := 100000, LastQty := 10, ExecType := ExecType.Trade,
    TradingPhaseMarket := TPM.AMTrading }

/-- Witness applying szse_seq_regression_dropped at concrete inputs. -/
theorem szse_seq_regression_dropped_witness :
    handleOrderMsg c3State c3Order = Except.ok (c3State, []) ∧
    handleExeMsg c3State c3Exec = Except.ok (c3State, []) :=
  szse_seq_regression_dropped c3State c3Order c3Exec rfl (by decide) (by decide)

/-- C2: during continuous trading with the holding slot empty, a market
order, or a limit order that would cross against non-zero opposite best
quantity, that is not a GEM out-of-cage order, is only placed in the
holding slot: nothing is emitted and the registry, both level trees, the
cached bests and the weighted totals are unchanged. -/
theorem continuous_market_or_crossing_order_held (s : AXOB) (o : ObOrder)
    (hph : s.TradingPhaseMarket = TPM.AMTrading ∨ s.TradingPhaseMarket = TPM.PMTrading)
    (hhold : s.holding_nb = 0)
    (hkind : o.otype = OTYPE.MARKET ∨ crossingB s o = true)
    (hcage : gemOutOfCageB s o = false) :
    (onLimitOrder s o).2 = [] ∧
    (onLimitOrder s o).1.holding_order = some o ∧
    (onLimitOrder s o).1.holding_nb = 1 ∧
    (onLimitOrder s o).1.order_map = s.order_map ∧
    (onLimitOrder s o).1.bid_level_tree = s.bid_level_tree ∧
    (onLimitOrder s o).1.ask_level_tree = s.ask_level_tree ∧
    (onLimitOrder s o).1.bid_max_level_price = s.bid_max_level_price ∧
    (onLimitOrder s o).1.bid_max_level_qty = s.bid_max_level_qty ∧
    (onLimitOrder s o).1.ask_min_level_price = s.ask_min_level_price ∧
    (onLimitOrder s o).1.ask_min_level_qty = s.ask_min_level_qty ∧
    (onLimitOrder s o).1.BidWeightSize = s.BidWeightSize ∧
    (onLimitOrder s o).1.BidWeightValue = s.BidWeightValue ∧
    (onLimitOrder s o).1.AskWeightSize = s.AskWeightSize ∧
    (onLimitOrder s o).1.AskWeightValue = s.AskWeightValue := by
  have h1 : ¬(s.TradingPhaseMarket = TPM.OpenCall ∨ s.TradingPhaseMarket = TPM.CloseCall) := by
    rcases hph with h | h <;> simp [h]
  have h2 : ¬s.TradingPhaseMarket = TPM.VolatilityBreaking := by
    rcases hph with h | h <;> simp [h]
  rcases Decidable.em (o.otype = OTYPE.MARKET) with hm | hm
  · simp [onLimitOrder, h1, h2, hcage, hm, hhold]
  · have hc : crossingB s o = true := by
      rcases hkind with hk | hk
      · exact absurd hk hm
      · exact hk
    simp [onLimitOrder, h1, h2, hcage, hm, hc, hhold]

/-- A continuous-trading SZSE main-board book with one ask level. -/
def c2State : AXOB :=
  { AXOB.init 1 Src.SZSE IType.STOCK with
      constantValue_ready := true
      TradingPhaseMarket := TPM.AMTrading
      ask_level_tree := [(1000, 50)]
      ask_min_level_price := 1000
      ask_min_level_qty := 50
      AskWeightSize := 50
      AskWeightValue := 50000 }

/-- A limit bid at the best ask: it would cross, so it must be held. -/
def c2Order : ObOrder :=
  { applSeqNum := 9, price := 1000, qty := 30, side := SIDE.BID, otype := OTYPE.LIMIT,
    traded := false, TransactTime := 93000010 }

/-- Witness applying continuous_market_or_crossing_order_held at a
concrete crossing limit order. -/
theorem continuous_market_or_crossing_order_held_witness :
    (onLimitOrder c2State c2Order).2 = [] ∧
    (onLimitOrder c2State c2Order).1.holding_order = some c2Order ∧
    (onLimitOrder c2State c2Order).1.holding_nb = 1 ∧
    (onLimitOrder c2State c2Order).1.order_map = c2State.order_map ∧
    (onLimitOrder c2State c2Order).1.bid_level_tree = c2State.bid_level_tree ∧
    (onLimitOrder c2State c2Order).1.ask_level_tree = c2State.ask_level_tree ∧
    (onLimitOrder c2State c2Order).1.bid_max_level_price = c2State.bid_max_level_price ∧
    (onLimitOrder c2State c2Order).1.bid_max_level_qty = c2State.bid_max_level_qty ∧
    (onLimitOrder c2State c2Order).1.ask_min_level_price = c2State.ask_min_level_price ∧
    (onLimitOrder c2State c2Order).1.ask_min_level_qty = c2State.ask_min_level_qty ∧
    (onLimitOrder c2State c2Order).1.BidWeightSize = c2State.BidWeightSize ∧
    (onLimitOrder c2State c2Order).1.BidWeightValue = c2State.BidWeightValue ∧
    (onLimitOrder c2State c2Order).1.AskWeightSize = c2State.AskWeightSize ∧
    (onLimitOrder c2State c2Order).1.AskWeightValue = c2State.AskWeightValue :=
  continuous_market_or_crossing_order_held c2State c2Order (Or.inl rfl) rfl
    (Or.inr (by decide)) (by decide)

theorem levelDequeue_frame (s : AXOB) (side : SIDE) (p qty : Int) :
    (levelDequeue s side p qty).order_map = s.order_map ∧
    (levelDequeue s side p qty).illegal_order_map = s.illegal_order_map ∧
    (levelDequeue s side p qty).TradingPhaseMarket = s.TradingPhaseMarket ∧
    (levelDequeue s side p qty).instrument_type = s.instrument_type ∧
    (levelDequeue s side p qty).market_subtype = s.market_subtype := by
  unfold levelDequeue
  by_cases hb : side = SIDE.BID
  · rw [if_pos hb]
    rcases h : alookup s.bid_level_tree p with _ | q0
    · rw [dequeueBidLevel_none s p qty h]
      exact ⟨rfl, rfl, rfl, rfl, rfl⟩
    · have hd := dequeueBidLevel_some s p qty q0 h
      exact ⟨hd.1, hd.2.1, hd.2.2.1, hd.2.2.2.1, hd.2.2.2.2.1⟩
  · rw [if_neg hb]
    rcases h : alookup s.ask_level_tree p with _ | q0
    · rw [dequeueAskLevel_none s p qty h]
      exact ⟨rfl, rfl, rfl, rfl, rfl⟩
    · have hd := dequeueAskLevel_some s p qty q0 h
      exact ⟨hd.1, hd.2.1, hd.2.2.1, hd.2.2.2.1, hd.2.2.2.2.1⟩

theorem enterCage_order_map (s : AXOB) : (enterCage s).order_map = s.order_map :=
  congrArg (fun t => t.1) (enterCage_view s)

theorem enterCage_bid_tree (s : AXOB) : (enterCage s).bid_level_tree = s.bid_level_tree :=
  congrArg (fun t => t.2.2.1) (enterCage_view s)

theorem enterCage_ask_tree (s : AXOB) : (enterCage s).ask_level_tree = s.ask_level_tree :=
  congrArg (fun t => t.2.2.2.1) (enterCage_view s)

theorem enterCage_phase (s : AXOB) :
    (enterCage s).TradingPhaseMarket = s.TradingPhaseMarket :=
  congrArg (fun t => t.2.2.2.2.1) (enterCage_view s)

theorem enterCage_itype (s : AXOB) : (enterCage s).instrument_type = s.instrument_type :=
  congrArg (fun t => t.2.2.2.2.2.1) (enterCage_view s)

/-- C4: three-way disposition of a cancel with the holding slot empty,
on a GEM stock in continuous trading.  If the applSeqNum is in the order
registry, the cancelled quantity is subtracted from the order's price
level (removing the level when it empties), the registry entry is
removed, the cage-entry scan runs (its fixed point leaves both waiting
flags cleared) and one snapshot is emitted.  If it is only in the
illegal-order set, the set entry is removed and nothing else changes and
no snapshot is emitted.  If it is in neither, a fatal protocol error is
raised to the caller after logging. -/
theorem cancel_three_way_disposition (s : AXOB) (c : ObCancel)
    (hhold : s.holding_nb = 0)
    (hphase : s.TradingPhaseMarket = TPM.AMTrading)
    (hinst : s.instrument_type = IType.STOCK)
    (hgem : s.market_subtype = MSUB.SZSE_STK_GEM) :
    (∀ o, alookup s.order_map c.applSeqNum = some o →
      (keysOf (sideTree s c.side)).Nodup →
      ∃ s1, onCancel s c = Except.ok (s1, [SnapKind.trading]) ∧
        s1.order_map = eraseKey s.order_map c.applSeqNum ∧
        alookup (sideTree s1 c.side) o.price =
          (match alookup (sideTree s c.side) o.price with
           | none => none
           | some q0 => if q0 - c.qty ≤ 0 then none else some (q0 - c.qty)) ∧
        s1.bid_waiting_for_cage = false ∧ s1.ask_waiting_for_cage = false) ∧
    (alookup s.order_map c.applSeqNum = none →
      (alookup s.illegal_order_map c.applSeqNum).isSome = true →
      onCancel s c = Except.ok
        ({ s with illegal_order_map := eraseKey s.illegal_order_map c.applSeqNum }, [])) ∧
    (alookup s.order_map c.applSeqNum = none →
      (alookup s.illegal_order_map c.applSeqNum).isSome = false →
      onCancel s c = Except.error "cancel AppSeqNum not found") := by
  refine ⟨?_, ?_, ?_⟩
  · intro o ho hnd
    have hsE : ({ s with order_map := eraseKey s.order_map c.applSeqNum } : AXOB).market_subtype
        = MSUB.SZSE_STK_GEM := hgem
    have hfr := levelDequeue_frame { s with order_map := eraseKey s.order_map c.applSeqNum }
      c.side o.price c.qty
    refine ⟨enterCage (levelDequeue { s with order_map := eraseKey s.order_map c.applSeqNum }
      c.side o.price c.qty), ?_, ?_, ?_, (enterCage_flags _).1, (enterCage_flags _).2⟩
    · unfold onCancel
      dsimp only
      rw [if_neg (not_not_intro hhold)]
      dsimp only
      rw [ho]
      dsimp only
      rw [if_pos (hfr.2.2.2.2.trans hsE)]
      rw [genSnap_fst]
      rw [genSnap_AMTrading_stock _ (by rw [enterCage_phase, hfr.2.2.1]; exact hphase)
        (by rw [enterCage_itype, hfr.2.2.2.1]; exact hinst)]
      rfl
    · rw [enterCage_order_map, hfr.1]
    · by_cases hb : c.side = SIDE.BID
      · unfold sideTree
        rw [if_pos hb, if_pos hb, enterCage_bid_tree]
        unfold levelDequeue
        rw [if_pos hb]
        rcases hL : alookup s.bid_level_tree o.price with _ | q0
        · rw [dequeueBidLevel_none { s with order_map := eraseKey s.order_map c.applSeqNum }
            o.price c.qty hL]
          dsimp only
          all_goals exact hL
        · rw [(dequeueBidLevel_some { s with order_map := eraseKey s.order_map c.applSeqNum }
            o.price c.qty q0 hL).2.2.2.2.2.2]
          dsimp only
          by_cases hz : q0 - c.qty ≤ 0
          · rw [if_pos hz, if_pos hz]
            have hndb : (keysOf s.bid_level_tree).Nodup := by
              unfold sideTree at hnd
              rwa [if_pos hb] at hnd
            exact alookup_erase_setKey_self s.bid_level_tree o.price (q0 - c.qty) hndb
          · rw [if_neg hz, if_neg hz]
            exact alookup_setKey_self s.bid_level_tree o.price (q0 - c.qty)
      · unfold sideTree
        rw [if_neg hb, if_neg hb, enterCage_ask_tree]
        unfold levelDequeue
        rw [if_neg hb]
        rcases hL : alookup s.ask_level_tree o.price with _ | q0
        · rw [dequeueAskLevel_none { s with order_map := eraseKey s.order_map c.applSeqNum }
            o.price c.qty hL]
          dsimp only
          all_goals exact hL
        · rw [(dequeueAskLevel_some { s with order_map := eraseKey s.order_map c.applSeqNum }
            o.price c.qty q0 hL).2.2.2.2.2.2]
          dsimp only
          by_cases hz : q0 - c.qty ≤ 0
          · rw [if_pos hz, if_pos hz]
            have hnda : (keysOf s.ask_level_tree).Nodup := by
              unfold sideTree at hnd
              rwa [if_neg hb] at hnd
            exact alookup_erase_setKey_self s.ask_level_tree o.price (q0 - c.qty) hnda
          · rw [if_neg hz, if_neg hz]
            exact alookup_setKey_self s.ask_level_tree o.price (q0 - c.qty)
  · intro hnone hsome
    unfold onCancel
    dsimp only
    rw [if_neg (not_not_intro hhold)]
    dsimp only
    rw [hnone]
    dsimp only
    rw [if_pos hsome]
  · intro hnone hsome
    unfold onCancel
    dsimp only
    rw [if_neg (not_not_intro hhold)]
    dsimp only
    rw [hnone]
    dsimp only
    rw [if_neg (by rw [hsome]; exact Bool.false_ne_true)]

/-- A resting GEM bid 10.00 x 0.80 under seq 11. -/
def c4Order : ObOrder :=
  { applSeqNum := 11, price := 1000, qty := 80, side := SIDE.BID, otype := OTYPE.LIMIT,
    traded := false, TransactTime := 93000000 }

/-- An order parked in the illegal-order set under seq 12. -/
def c4Illegal : ObOrder :=
  { applSeqNum := 12, price := 99000, qty := 10, side := SIDE.BID, otype := OTYPE.LIMIT,
    traded := false, TransactTime := 92000000 }

/-- A GEM stock in continuous trading with one resting bid and one
illegal-set entry, for the three cancel dispositions. -/
def c4State : AXOB :=
  { AXOB.init 300010 Src.SZSE IType.STOCK with
      constantValue_ready := true
      TradingPhaseMarket := TPM.AMTrading
      order_map := [(11, c4Order)]
      illegal_order_map := [(12, c4Illegal)]
      bid_level_tree := [(1000, 80)]
      bid_max_level_price := 1000
      bid_max_level_qty := 80
      BidWeightSize := 80
      BidWeightValue := 80000 }

/-- Cancel of the resting order seq 11 (full remaining qty 80). -/
def c4CancelA : ObCancel :=
  { applSeqNum := 11, qty := 80, price := 0, side := SIDE.BID, TransactTime := 93100000 }

/-- Cancel of the illegal-set order seq 12. -/
def c4CancelB : ObCancel :=
  { applSeqNum := 12, qty := 10, price := 0, side := SIDE.BID, TransactTime := 93100010 }

/-- Cancel of an unknown seq 13. -/
def c4CancelC : ObCancel :=
  { applSeqNum := 13, qty := 5, price := 0, side := SIDE.BID, TransactTime := 93100020 }

/-- Witness applying cancel_three_way_disposition to the three concrete
cancels: registry cancel, illegal-set cancel, unknown cancel. -/
theorem cancel_three_way_disposition_witness :
    (∃ s1, onCancel c4State c4CancelA = Except.ok (s1, [SnapKind.trading]) ∧
        s1.order_map = eraseKey c4State.order_map c4CancelA.applSeqNum ∧
        alookup (sideTree s1 c4CancelA.side) c4Order.price =
          (match alookup (sideTree c4State c4CancelA.side) c4Order.price with
           | none => none
           | some q0 => if q0 - c4CancelA.qty ≤ 0 then none else some (q0 - c4CancelA.qty)) ∧
        s1.bid_waiting_for_cage = false ∧ s1.ask_waiting_for_cage = false) ∧
    onCancel c4State c4CancelB = Except.ok
      ({ c4State with
          illegal_order_map := eraseKey c4State.illegal_order_map c4CancelB.applSeqNum }, []) ∧
    onCancel c4State c4CancelC = Except.error "cancel AppSeqNum not found" :=
  ⟨(cancel_three_way_disposition c4State c4CancelA rfl rfl rfl rfl).1 c4Order
      (by decide) (by decide),
   (cancel_three_way_disposition c4State c4CancelB rfl rfl rfl rfl).2.1
      (by decide) (by decide),
   (cancel_three_way_disposition c4State c4CancelC rfl rfl rfl rfl).2.2
      (by decide) (by decide)⟩

theorem checkPhaseTransition_step (m : MuMsg) (ch : MuChannel) :
    (checkPhaseTransition m ch).1.tpm = ch.tpm ∨
      chainNext ch.tpm = some (checkPhaseTransition m ch).1.tpm := by
  obtain ⟨tpm, sids⟩ := ch
  cases tpm <;>
    · unfold checkPhaseTransition muTransitionFor
      dsimp only
      first
        | exact Or.inl rfl
        | (split_ifs with hf
           · exact Or.inr rfl
           · exact Or.inl rfl)

/-- C9: the multiplexer phase machine.  First, through MU.onMsg every
tracked channel only keeps its phase or advances to its unique successor
in the linear chain Starting, OpenCall, PreTradingBreaking, AMTrading,
Breaking, PMTrading, CloseCall, Ending (never skipping, never moving
back).  Second, from Starting, any order or execution message, or a
snapshot with HHMMSSms at or after 09:15:00, advances the channel to
OpenCall.  Third, when a message fires a transition, the synthetic
signal is delivered to every symbol registered on the channel (events
before the final deliver event of the triggering message itself). -/
theorem mu_phase_machine_correct (s : MuState) (m : MuMsg) :
    (∀ cn ch ch2, alookup s.channel_map cn = some ch →
        alookup (MU.onMsg s m).1.channel_map cn = some ch2 →
        ch2.tpm = ch.tpm ∨ chainNext ch.tpm = some ch2.tpm) ∧
    (∀ ch : MuChannel, ch.tpm = TPM.Starting →
        ((∃ a b c d, m = MuMsg.order a b c d) ∨ (∃ a b c d, m = MuMsg.exe a b c d) ∨
         (∃ a b c d, m = MuMsg.snap a b c d ∧ 91500000 ≤ c)) →
        (checkPhaseTransition m ch).1.tpm = TPM.OpenCall) ∧
    (∀ sid ch0 np f g, m.secId = some sid → sid ∈ s.axobs →
        alookup s.channel_map (getChannelNo s m) = some ch0 →
        muTransitionFor ch0.tpm = some (np, f, g) →
        f m = true →
        (MU.onMsg s m).2 =
          (addSid sid ch0.sids).map (fun x => MuEvent.signal x g) ++ [MuEvent.deliver sid]) := by
  refine ⟨?_, ?_, ?_⟩
  · intro cn ch ch2 hpre hpost
    unfold MU.onMsg at hpost
    rcases hsid : m.secId with _ | sid <;> rw [hsid] at hpost <;> dsimp only at hpost
    · rw [hpre] at hpost
      exact Or.inl (congrArg MuChannel.tpm (Option.some.inj hpost).symm)
    · by_cases hmem : sid ∈ s.axobs
      · rw [if_pos hmem] at hpost
        dsimp only at hpost
        by_cases hcn : getChannelNo s m = cn
        · subst hcn
          rw [alookup_setKey_self] at hpost
          rw [hpre] at hpost
          dsimp only at hpost
          obtain rfl := (Option.some.inj hpost).symm
          exact checkPhaseTransition_step m { ch with sids := addSid sid ch.sids }
        · rw [alookup_setKey_other _ _ _ _ (fun h => hcn h.symm)] at hpost
          rw [hpre] at hpost
          exact Or.inl (congrArg MuChannel.tpm (Option.some.inj hpost).symm)
      · rw [if_neg hmem] at hpost
        rw [hpre] at hpost
        exact Or.inl (congrArg MuChannel.tpm (Option.some.inj hpost).symm)
  · intro ch htpm htrig
    have hf : isOpencallStart m = true := by
      rcases htrig with ⟨a, b, c2, d, rfl⟩ | ⟨a, b, c2, d, rfl⟩ | ⟨a, b, c2, d, rfl, hge⟩
      · rfl
      · rfl
      · simp [isOpencallStart, hge]
    unfold checkPhaseTransition
    rw [htpm]
    dsimp only [muTransitionFor]
    rw [if_pos hf]
  · intro sid ch0 np f g hsid hmem hpre htr hf
    unfold MU.onMsg
    rw [hsid]
    dsimp only
    rw [if_pos hmem]
    dsimp only
    rw [hpre]
    dsimp only
    unfold checkPhaseTransition
    rw [htr]
    dsimp only
    rw [if_pos hf]

/-- A multiplexer tracking symbols 7 and 8, with channel 1000 still in
Starting and symbol 8 already registered on it. -/
def c9State : MuState :=
  { SecurityIDSource := Src.SZSE
    channel_map := [(1000, { tpm := TPM.Starting, sids := [8] })]
    axobs := [7, 8]
    msg_nb := 0 }

/-- A 09:20 snapshot for symbol 7 on snapshot channel 2000. -/
def c9Snap : MuMsg := MuMsg.snap 7 2000 92000000 TPM.OpenCall

/-- Witness applying mu_phase_machine_correct at the concrete state and
snapshot: the channel advances Starting to OpenCall (one step), and the
OPENCALL_BGN signal reaches both registered symbols before the snapshot
is forwarded to symbol 7. -/
theorem mu_phase_machine_correct_witness :
    ((⟨TPM.OpenCall, [8, 7]⟩ : MuChannel).tpm = (⟨TPM.Starting, [8]⟩ : MuChannel).tpm ∨
      chainNext (⟨TPM.Starting, [8]⟩ : MuChannel).tpm =
        some (⟨TPM.OpenCall, [8, 7]⟩ : MuChannel).tpm) ∧
    (checkPhaseTransition c9Snap ⟨TPM.Starting, [8]⟩).1.tpm = TPM.OpenCall ∧
    (MU.onMsg c9State c9Snap).2 =
      (addSid 7 [8]).map (fun x => MuEvent.signal x AXSIG.OPENCALL_BGN) ++
        [MuEvent.deliver 7] := by
  refine ⟨?_, ?_, ?_⟩
  · exact (mu_phase_machine_correct c9State c9Snap).1 1000 ⟨TPM.Starting, [8]⟩
      ⟨TPM.OpenCall, [8, 7]⟩ (by decide) (by decide)
  · exact (mu_phase_machine_correct c9State c9Snap).2.1 ⟨TPM.Starting, [8]⟩ rfl
      (Or.inr (Or.inr ⟨7, 2000, 92000000, TPM.OpenCall, rfl, by decide⟩))
  · exact (mu_phase_machine_correct c9State c9Snap).2.2 7 ⟨TPM.Starting, [8]⟩
      TPM.OpenCall isOpencallStart AXSIG.OPENCALL_BGN rfl (by decide) (by decide) rfl
      (by decide)
